import Mathlib

/-! # Verification of the JIRA bulk-import scripts

Shallow embedding of `packages/dashboard/scripts/jira_import_cp.py` (namespace
`Cp`) and `packages/dashboard/scripts/jira_import_dashboard.py` (namespace
`Dash`).

The remote HTTP service is modelled as an oracle `Nat → Resp` giving the
response to the n-th POST request issued during the run; JSON extraction of
the `key` and `id` members of a 201 response body is modelled as total, per
the remote interface (a 201 response carries the newly assigned key/id).
Transport exceptions are modelled separately by `CallResult`: the scripts
contain no try/except, so a raise propagates out of the run.
Rate-limiting sleeps have no observable effect in this model and are omitted.
-/

/-- An HTTP response as the scripts observe it: `response.status_code`,
`response.text`, and the `key` and `id` members of `response.json()`. -/
structure Resp where
  status : Nat
  body : String
  key : String
  id : String
deriving Repr, DecidableEq

/-- An error line printed for a non-201 response: the status code and the
(possibly truncated) response text. -/
structure ErrPrint where
  status : Nat
  body : String
deriving Repr, DecidableEq

/-- Truthiness of a Python `Optional[str]` value: `None` and the empty string
are falsy, every other string is truthy. -/
def pyTruthy : Option String → Bool
  | none => false
  | some s => s != ""

/-- JSON-like values, used for the request payloads the scripts build. -/
inductive JVal where
  | str (s : String)
  | num (n : Nat)
  | arr (elems : List JVal)
  | obj (fields : List (String × JVal))

instance : Inhabited JVal := ⟨.num 0⟩

/-- The Atlassian rich-text description document both scripts build inline
around a single text node: a `doc` of version 1 holding one `paragraph`
holding one `text` node with the given text. -/
def adfDoc (text : String) : JVal :=
  .obj [("type", .str "doc"), ("version", .num 1),
    ("content", .arr [.obj [("type", .str "paragraph"),
      ("content", .arr [.obj [("type", .str "text"), ("text", .str text)]])]])]

/-- The field names of an issue payload, i.e. the keys of the `fields` object. -/
def payloadFieldKeys : JVal → List String
  | .obj [(_, .obj fs)] => fs.map (fun p => p.1)
  | _ => []

/-- The two credential values as the scripts read them via
`os.environ.get(name, "")`: an unset variable is indistinguishable from an
empty one. -/
structure Env where
  JIRA_EMAIL : String
  JIRA_API_TOKEN : String

/-- Result of running a whole script process: either `exit(code)` was called
during the module-level credential check, or `main()` returned normally and
the interpreter exits with status 0. -/
inductive ExitResult (α : Type) where
  | exited (code : Nat)
  | completed (a : α)

/-- The process exit status corresponding to an `ExitResult`. -/
def exitCode {α : Type} : ExitResult α → Nat
  | .exited c => c
  | .completed _ => 0

/-- The instructions printed by the module-level credential check, identical
in both scripts. -/
def credentialInstructions : List String :=
  ["Error: JIRA_EMAIL and JIRA_API_TOKEN environment variables must be set",
   "  export JIRA_EMAIL=\x27your-email@example.com\x27",
   "  export JIRA_API_TOKEN=\x27your-api-token\x27"]

/-- Result of one attempted `requests.post` in the exception-aware model:
either a response arrived, or the transport raised (connection error,
timeout, ...). -/
inductive CallResult where
  | resp (r : Resp)
  | raise (e : String)

/-- Strict lexicographic order on pairs of naturals, used to state in which
order the scripts issue their HTTP calls. -/
def lexLt (a b : Nat × Nat) : Prop := a.1 < b.1 ∨ (a.1 = b.1 ∧ a.2 < b.2)

namespace Cp

/-- A story literal of `EPICS_AND_STORIES`: the `summary`, `points` and
`description` entries. -/
structure StorySpec where
  summary : String
  points : Nat
  description : String
deriving Repr, DecidableEq

/-- An epic literal of `EPICS_AND_STORIES`: the `name`, `summary` and
`description` entries. -/
structure EpicSpec where
  name : String
  summary : String
  description : String
deriving Repr, DecidableEq

/-- One entry of `EPICS_AND_STORIES`: an epic together with its stories. -/
structure EpicGroup where
  epic : EpicSpec
  stories : List StorySpec
deriving Repr, DecidableEq

instance : Inhabited StorySpec := ⟨⟨"", 0, ""⟩⟩
instance : Inhabited EpicGroup := ⟨⟨⟨"", "", ""⟩, []⟩⟩

def PROJECT_KEY : String := "CP"
def EPIC_TYPE_ID : String := "10197"
def STORY_TYPE_ID : String := "10196"

def EPICS_AND_STORIES : List EpicGroup := [
  ⟨⟨"Project Foundation & Infrastructure", "[Dashboard] Project Foundation & Infrastructure",
    "Set up the @aigrc/dashboard package with proper TypeScript configuration, build tooling, and development infrastructure."⟩, [
    ⟨"Initialize @aigrc/dashboard package structure", 3, "Create package.json, tsconfig.json, and directory structure following monorepo conventions."⟩,
    ⟨"Configure Vite build system", 3, "Set up Vite with React, TypeScript, and proper output configuration for library builds."⟩,
    ⟨"Set up Tailwind CSS with AIGRC theme", 3, "Configure Tailwind with governance-specific color palette and design tokens."⟩,
    ⟨"Configure path aliases and module resolution", 2, "Set up @/ path aliases for clean imports across the dashboard."⟩,
    ⟨"Create development server configuration", 2, "Configure hot reload, proxy settings for API development."⟩,
    ⟨"Set up ESLint and Prettier", 2, "Configure code quality tools consistent with monorepo standards."⟩,
    ⟨"Create CI/CD pipeline configuration", 3, "GitHub Actions for build, test, and deployment workflows."⟩,
    ⟨"Document package setup and development workflow", 2, "README with setup instructions, development commands, and contribution guidelines."⟩
  ]⟩,
  ⟨⟨"Core UI Component Library", "[Dashboard] Core UI Component Library",
    "Implement the foundational UI components adapted from shadcn/ui for the AIGRC dashboard."⟩, [
    ⟨"Implement Button component with governance variants", 3, "Base button with minimal/limited/high/unacceptable risk level variants."⟩,
    ⟨"Implement Card component system", 3, "Card, CardHeader, CardContent, CardFooter with proper styling."⟩,
    ⟨"Implement Badge component with risk/compliance variants", 3, "Badges for risk levels and compliance status indicators."⟩,
    ⟨"Implement Table component system", 5, "Full table system with sorting, filtering, and pagination support."⟩,
    ⟨"Implement Form components (Input, Select, Textarea)", 5, "Form controls with validation states and accessibility."⟩,
    ⟨"Implement Dialog and Modal components", 3, "Accessible dialog system for confirmations and forms."⟩,
    ⟨"Implement Tabs component", 3, "Tab navigation for detail views and settings."⟩,
    ⟨"Implement Progress component with compliance variant", 2, "Progress bars with color coding based on compliance thresholds."⟩,
    ⟨"Implement Tooltip and Popover components", 3, "Information tooltips with proper positioning."⟩,
    ⟨"Implement Skeleton loading components", 2, "Loading states for async content."⟩,
    ⟨"Implement Avatar component", 2, "User avatars with fallback initials."⟩,
    ⟨"Create component documentation and Storybook", 5, "Document all components with usage examples."⟩
  ]⟩,
  ⟨⟨"Governance Display Components", "[Dashboard] Governance Display Components",
    "Specialized components for displaying AI governance information including risk levels and compliance status."⟩, [
    ⟨"Implement RiskLevelBadge component", 3, "Badge with EU AI Act risk classification (minimal/limited/high/unacceptable) with tooltips."⟩,
    ⟨"Implement ComplianceStatusBadge component", 3, "Badge showing compliance status with score percentage."⟩,
    ⟨"Implement RiskDistributionChart component", 5, "Visual chart showing asset distribution across risk levels."⟩,
    ⟨"Implement ComplianceTrendChart component", 5, "Time-series chart for compliance score trends."⟩,
    ⟨"Implement FrameworkDetectionCard component", 3, "Display detected AI/ML frameworks with confidence scores."⟩,
    ⟨"Implement PolicyViolationAlert component", 3, "Alert banner for policy violations with severity levels."⟩,
    ⟨"Implement ControlFindingsTable component", 5, "Table for displaying compliance control findings."⟩,
    ⟨"Implement RiskIndicatorList component", 3, "List of risk indicators from detection scans."⟩
  ]⟩,
  ⟨⟨"Asset Management Components", "[Dashboard] Asset Management Components",
    "Components for managing and displaying AI asset inventory."⟩, [
    ⟨"Implement AssetCard component", 5, "Card displaying asset summary with risk level, compliance status, and quick actions."⟩,
    ⟨"Implement AssetListView component", 5, "Paginated list view of assets with filtering and sorting."⟩,
    ⟨"Implement AssetGridView component", 3, "Grid layout for asset cards."⟩,
    ⟨"Implement AssetFilterPanel component", 5, "Filter panel for risk level, compliance status, department, tags."⟩,
    ⟨"Implement AssetDetailHeader component", 3, "Header section for asset detail page with key info and actions."⟩,
    ⟨"Implement AssetMetadataPanel component", 3, "Display asset metadata: owner, department, version, dates."⟩,
    ⟨"Implement AssetRegistrationForm component", 8, "Multi-step form for registering new AI assets."⟩,
    ⟨"Implement AssetEditForm component", 5, "Form for editing existing asset information."⟩
  ]⟩,
  ⟨⟨"Runtime Monitoring Components", "[Dashboard] Runtime Monitoring Components",
    "Components for AIGOS runtime agent monitoring and control."⟩, [
    ⟨"Implement RuntimeAgentCard component", 5, "Card showing agent status, health, metrics, and quick actions."⟩,
    ⟨"Implement RuntimeMetricsPanel component", 5, "Real-time metrics display: requests/min, latency, error rate."⟩,
    ⟨"Implement KillSwitchDialog component", 5, "Confirmation dialog for agent termination with reason capture."⟩,
    ⟨"Implement AgentHealthIndicator component", 3, "Visual health status with pulse animation for live agents."⟩,
    ⟨"Implement CapabilityBadgeList component", 2, "Display agent capabilities as badge list."⟩,
    ⟨"Implement RuntimeLogViewer component", 8, "Streaming log viewer for agent output."⟩,
    ⟨"Implement TraceViewer component", 8, "Distributed trace visualization for agent requests."⟩,
    ⟨"Implement EmergencyStopButton component", 3, "Global kill switch for all agents with confirmation."⟩
  ]⟩,
  ⟨⟨"API Client & Data Layer", "[Dashboard] API Client & Data Layer",
    "Implement the API client abstraction and data fetching layer."⟩, [
    ⟨"Implement AigrcClient base class", 5, "HTTP client with auth, error handling, retry logic."⟩,
    ⟨"Implement assets API service", 3, "CRUD operations for AI assets."⟩,
    ⟨"Implement detection API service", 3, "Scan triggers and result retrieval."⟩,
    ⟨"Implement compliance API service", 3, "Assessment operations and findings."⟩,
    ⟨"Implement runtime API service", 5, "Agent monitoring and control endpoints including kill switch."⟩,
    ⟨"Implement policies API service", 3, "Policy CRUD and evaluation."⟩,
    ⟨"Implement useAssets React Query hook", 3, "Data fetching hook with caching and mutations."⟩,
    ⟨"Implement useRuntime React Query hook", 3, "Real-time agent monitoring with polling."⟩,
    ⟨"Implement useCompliance React Query hook", 3, "Compliance data fetching and caching."⟩,
    ⟨"Create mock data provider for development", 5, "Realistic mock data for all entities."⟩
  ]⟩,
  ⟨⟨"Authentication & Authorization", "[Dashboard] Authentication & Authorization",
    "Implement authentication context and role-based access control."⟩, [
    ⟨"Implement AuthContext provider", 5, "React context for authentication state management."⟩,
    ⟨"Implement useAuth hook", 3, "Hook for accessing auth state and methods."⟩,
    ⟨"Implement PermissionGate component", 3, "Component for permission-based rendering."⟩,
    ⟨"Implement RoleGate component", 3, "Component for role-based rendering."⟩,
    ⟨"Implement ProtectedRoute component", 3, "Route wrapper requiring authentication."⟩,
    ⟨"Implement LoginPage component", 5, "Login form with SSO support."⟩,
    ⟨"Implement session management", 5, "Token refresh, session timeout handling."⟩,
    ⟨"Implement audit logging for auth events", 3, "Log authentication and authorization events."⟩
  ]⟩,
  ⟨⟨"Dashboard Pages", "[Dashboard] Dashboard Pages",
    "Implement the main dashboard pages using the component library."⟩, [
    ⟨"Implement DashboardPage (overview)", 8, "Main dashboard with KPIs, risk distribution, recent assets, active agents."⟩,
    ⟨"Implement AssetsListPage", 8, "Asset inventory with filtering, sorting, and pagination."⟩,
    ⟨"Implement AssetDetailPage", 8, "Detailed asset view with tabs for overview, detection, compliance, runtime."⟩,
    ⟨"Implement RuntimeMonitorPage", 8, "Real-time agent monitoring dashboard."⟩,
    ⟨"Implement ComplianceOverviewPage", 8, "Compliance dashboard with trends and assessments."⟩,
    ⟨"Implement PolicyManagementPage", 8, "Policy CRUD and rule builder interface."⟩,
    ⟨"Implement SettingsPage", 5, "User and organization settings."⟩,
    ⟨"Implement NotFoundPage", 2, "404 error page."⟩
  ]⟩,
  ⟨⟨"Layout & Navigation", "[Dashboard] Layout & Navigation",
    "Implement the dashboard shell with navigation and layout components."⟩, [
    ⟨"Implement DashboardLayout component", 5, "Main layout wrapper with sidebar and header."⟩,
    ⟨"Implement Sidebar navigation", 5, "Collapsible sidebar with navigation links."⟩,
    ⟨"Implement Header component", 3, "Top header with search, notifications, user menu."⟩,
    ⟨"Implement Breadcrumb navigation", 3, "Breadcrumb trail for page hierarchy."⟩,
    ⟨"Implement CommandPalette (Cmd+K)", 5, "Quick navigation and action command palette."⟩,
    ⟨"Implement NotificationCenter", 5, "Notification dropdown with real-time updates."⟩,
    ⟨"Implement UserMenu component", 3, "User dropdown with profile and logout."⟩,
    ⟨"Implement responsive mobile navigation", 5, "Mobile-friendly navigation drawer."⟩
  ]⟩,
  ⟨⟨"Testing & Quality Assurance", "[Dashboard] Testing & Quality Assurance",
    "Comprehensive testing suite for the dashboard components and pages."⟩, [
    ⟨"Set up Vitest testing framework", 3, "Configure Vitest with React Testing Library."⟩,
    ⟨"Write unit tests for UI components", 8, "Test all core UI components."⟩,
    ⟨"Write unit tests for governance components", 5, "Test RiskLevelBadge, ComplianceStatusBadge, etc."⟩,
    ⟨"Write unit tests for hooks", 5, "Test custom hooks with mock providers."⟩,
    ⟨"Write integration tests for pages", 8, "Test page rendering and interactions."⟩,
    ⟨"Set up Playwright for E2E tests", 5, "Configure Playwright with test fixtures."⟩,
    ⟨"Write E2E tests for critical flows", 8, "Test asset registration, runtime monitoring, compliance views."⟩,
    ⟨"Set up visual regression testing", 5, "Chromatic or Percy integration for visual testing."⟩,
    ⟨"Achieve 80% code coverage", 5, "Ensure comprehensive test coverage."⟩
  ]⟩
]

/-- The request body built by `create_epic`. -/
def epicIssueData (epic_data : EpicSpec) : JVal :=
  .obj [("fields", .obj [
    ("project", .obj [("key", .str PROJECT_KEY)]),
    ("summary", .str epic_data.summary),
    ("description", adfDoc epic_data.description),
    ("issuetype", .obj [("id", .str EPIC_TYPE_ID)])])]

/-- The request body built by `create_story`: the CP script adds a `parent`
reference but no story-points field (the points field id was never
discovered for this project). -/
def storyIssueData (story_data : StorySpec) (epic_key : String) : JVal :=
  .obj [("fields", .obj [
    ("project", .obj [("key", .str PROJECT_KEY)]),
    ("summary", .str story_data.summary),
    ("description", adfDoc story_data.description),
    ("issuetype", .obj [("id", .str STORY_TYPE_ID)]),
    ("parent", .obj [("key", .str epic_key)])])]

/-- `create_issue` without the POST itself: given the response, return the
`key` member of the body on a 201 status, and `None` plus an error print
(status code and full response text) otherwise. -/
def create_issue (response : Resp) : Option String × Option ErrPrint :=
  if response.status = 201 then (some response.key, none)
  else (none, some ⟨response.status, response.body⟩)

/-- One HTTP POST issued by the CP script, tagged with the catalog position
it was issued for. -/
inductive Call where
  | epicCall (i : Nat) (payload : JVal)
  | storyCall (i j : Nat) (epic_key : String) (payload : JVal)

instance : Inhabited Call := ⟨.epicCall 0 default⟩

/-- One per-item outcome record printed by the CP script.  A failure record
carries the error print of `create_issue` when the status was not 201, and
nothing when the status was 201 but the key was falsy (the script then prints
only the FAILED line). -/
inductive Event where
  | epicCreated (i : Nat) (key : String)
  | epicFailed (i : Nat) (err : Option ErrPrint)
  | storyCreated (i j : Nat) (key : String)
  | storyFailed (i j : Nat) (err : Option ErrPrint)
deriving Repr, DecidableEq

/-- Everything a run of `main` accumulates: the POSTs issued (in order), the
outcome records (in order), and the two created counters. -/
structure Trace where
  calls : List Call
  events : List Event
  created_epics : Nat
  created_stories : Nat

def Trace.nil : Trace := ⟨[], [], 0, 0⟩

def Trace.append (a b : Trace) : Trace :=
  ⟨a.calls ++ b.calls, a.events ++ b.events,
   a.created_epics + b.created_epics, a.created_stories + b.created_stories⟩

/-- The inner loop of `main`: create the stories of the epic at catalog
position `i` under `epic_key`.  `n` is the index of the next HTTP call and
`j` the position of the first remaining story within the epic. -/
def runStories (oracle : Nat → Resp) (i : Nat) (epic_key : String) :
    Nat → Nat → List StorySpec → Nat × Trace
  | n, _, [] => (n, Trace.nil)
  | n, j, story :: rest =>
    let response := oracle n
    let story_key := (create_issue response).1
    let head : Trace :=
      ⟨[Call.storyCall i j epic_key (storyIssueData story epic_key)],
       [if pyTruthy story_key then Event.storyCreated i j (story_key.getD "")
        else Event.storyFailed i j (create_issue response).2],
       0, if pyTruthy story_key then 1 else 0⟩
    let out := runStories oracle i epic_key (n+1) (j+1) rest
    (out.1, head.append out.2)

/-- The outer loop of `main`: for each catalog entry create the epic; on a
truthy key create its stories right away, otherwise record the failure and
move on.  `n` is the index of the next HTTP call and `i` the catalog
position of the first remaining entry. -/
def runEpics (oracle : Nat → Resp) :
    Nat → Nat → List EpicGroup → Nat × Trace
  | n, _, [] => (n, Trace.nil)
  | n, i, epic_data :: rest =>
    let response := oracle n
    let epic_key := (create_issue response).1
    if pyTruthy epic_key then
      let head : Trace :=
        ⟨[Call.epicCall i (epicIssueData epic_data.epic)],
         [Event.epicCreated i (epic_key.getD "")], 1, 0⟩
      let sOut := runStories oracle i (epic_key.getD "") (n + 1) 0 epic_data.stories
      let eOut := runEpics oracle sOut.1 (i + 1) rest
      (eOut.1, head.append (sOut.2.append eOut.2))
    else
      let head : Trace :=
        ⟨[Call.epicCall i (epicIssueData epic_data.epic)],
         [Event.epicFailed i (create_issue response).2], 0, 0⟩
      let eOut := runEpics oracle (n + 1) (i + 1) rest
      (eOut.1, head.append eOut.2)

/-- A full run of the CP script's `main` against a response oracle. -/
def main (oracle : Nat → Resp) : Trace :=
  (runEpics oracle 0 0 EPICS_AND_STORIES).2

/-- The final tally printed by `main`. -/
structure Report where
  epics_created : Nat
  total_epics : Nat
  stories_created : Nat
  total_stories : Nat
  total_story_points : Nat
deriving Repr, DecidableEq

/-- The final tally of a run: the created counters over the catalog totals,
and the literal `349` the script prints as the total story points. -/
def report (oracle : Nat → Resp) : Report :=
  let t := main oracle
  { epics_created := t.created_epics,
    total_epics := EPICS_AND_STORIES.length,
    stories_created := t.created_stories,
    total_stories := (EPICS_AND_STORIES.map (fun e => e.stories.length)).sum,
    total_story_points := 349 }

/-- The whole CP script process: the module-level credential check printing
the instructions and calling `exit(1)` when a credential is falsy, before any
HTTP call; otherwise `main` runs and the process exits 0. -/
def script (env : Env) (oracle : Nat → Resp) : List String × ExitResult Trace :=
  if env.JIRA_EMAIL = "" ∨ env.JIRA_API_TOKEN = "" then
    (credentialInstructions, .exited 1)
  else ([], .completed (main oracle))

/-- The HTTP calls issued by a whole script process. -/
def scriptCalls : List String × ExitResult Trace → List Call
  | (_, .exited _) => []
  | (_, .completed t) => t.calls

/-- Exception-aware variant of `runStories`: a transport raise propagates
(the script has no try/except) and aborts the loop. -/
def runStoriesE (oracle : Nat → CallResult) (i : Nat) (epic_key : String) :
    Nat → Nat → List StorySpec → Except String (Nat × Trace)
  | n, _, [] => .ok (n, Trace.nil)
  | n, j, story :: rest =>
    match oracle n with
    | .raise e => .error e
    | .resp response =>
      let story_key := (create_issue response).1
      let head : Trace :=
        ⟨[Call.storyCall i j epic_key (storyIssueData story epic_key)],
         [if pyTruthy story_key then Event.storyCreated i j (story_key.getD "")
          else Event.storyFailed i j (create_issue response).2],
         0, if pyTruthy story_key then 1 else 0⟩
      match runStoriesE oracle i epic_key (n+1) (j+1) rest with
      | .error e => .error e
      | .ok out => .ok (out.1, head.append out.2)

/-- Exception-aware variant of `runEpics`. -/
def runEpicsE (oracle : Nat → CallResult) :
    Nat → Nat → List EpicGroup → Except String (Nat × Trace)
  | n, _, [] => .ok (n, Trace.nil)
  | n, i, epic_data :: rest =>
    match oracle n with
    | .raise e => .error e
    | .resp response =>
      let epic_key := (create_issue response).1
      if pyTruthy epic_key then
        let head : Trace :=
          ⟨[Call.epicCall i (epicIssueData epic_data.epic)],
           [Event.epicCreated i (epic_key.getD "")], 1, 0⟩
        match runStoriesE oracle i (epic_key.getD "") (n + 1) 0 epic_data.stories with
        | .error e => .error e
        | .ok sOut =>
          match runEpicsE oracle sOut.1 (i + 1) rest with
          | .error e => .error e
          | .ok eOut => .ok (eOut.1, head.append (sOut.2.append eOut.2))
      else
        let head : Trace :=
          ⟨[Call.epicCall i (epicIssueData epic_data.epic)],
           [Event.epicFailed i (create_issue response).2], 0, 0⟩
        match runEpicsE oracle (n + 1) (i + 1) rest with
        | .error e => .error e
        | .ok eOut => .ok (eOut.1, head.append eOut.2)

/-- A full run of the CP script's `main` in the exception-aware model:
either the final trace, or the exception that escaped `main`. -/
def mainE (oracle : Nat → CallResult) : Except String Trace :=
  match runEpicsE oracle 0 0 EPICS_AND_STORIES with
  | .error e => .error e
  | .ok out => .ok out.2

end Cp

namespace Dash

/-- An epic literal of `EPICS`: the `key` (catalog-internal label), `summary`,
`description` and `labels` entries. -/
structure EpicSpec where
  key : String
  summary : String
  description : String
  labels : List String
deriving Repr, DecidableEq

/-- A story literal of `STORIES`: the `epic` reference (an `EpicSpec.key`
label), `summary`, `points` and `description` entries. -/
structure StorySpec where
  epic : String
  summary : String
  points : Nat
  description : String
deriving Repr, DecidableEq

instance : Inhabited EpicSpec := ⟨⟨"", "", "", []⟩⟩
instance : Inhabited StorySpec := ⟨⟨"", "", 0, ""⟩⟩

def PROJECT_KEY : String := "AP"
def EPIC_TYPE_ID : String := "10049"
def STORY_TYPE_ID : String := "10048"
def STORY_POINTS_FIELD : String := "customfield_10016"

set_option maxHeartbeats 1000000 in
def EPICS : List EpicSpec := [
  ⟨"AD-1", "[P0] Dashboard Foundation & Package Setup",
    "Set up the @aigrc/dashboard package structure, build configuration, and core dependencies. This epic establishes the foundation for the entire dashboard adoption project.", ["dashboard", "foundation", "p0"]⟩,
  ⟨"AD-2", "[P0] UI Component Library",
    "Adopt and adapt shadcn/ui components from aftrbell for AIGRC use cases. Includes governance-specific variants for risk levels and compliance status.", ["dashboard", "components", "ui", "p0"]⟩,
  ⟨"AD-3", "[P0] Authentication & Authorization",
    "Implement authentication context and permission-based access control. Replace Supabase auth with AIGRC-native authentication.", ["dashboard", "auth", "security", "p0"]⟩,
  ⟨"AD-4", "[P1] Asset Management UI",
    "Build the asset card management interface including list, detail, create, and edit views.", ["dashboard", "assets", "p1"]⟩,
  ⟨"AD-5", "[P1] Detection Results UI",
    "Build the framework detection results interface for viewing scan results and creating assets from suggestions.", ["dashboard", "detection", "p1"]⟩,
  ⟨"AD-6", "[P1] Compliance Dashboard",
    "Build the compliance tracking and assessment interface with support for multiple compliance profiles (EU AI Act, NIST AI RMF, CMMC).", ["dashboard", "compliance", "p1"]⟩,
  ⟨"AD-7", "[P1] Runtime Governance UI",
    "Build the AIGOS runtime monitoring and control interface including agent monitoring, kill switch controls, and policy decision logging.", ["dashboard", "runtime", "aigos", "p1"]⟩,
  ⟨"AD-8", "[P2] Dashboard Analytics",
    "Build the executive dashboard with metrics and analytics for C-suite visibility.", ["dashboard", "analytics", "p2"]⟩,
  ⟨"AD-9", "[P2] Air-Gap Variant",
    "Create the air-gapped deployment variant with local backend for stand-alone installations.", ["dashboard", "air-gap", "deployment", "p2"]⟩,
  ⟨"AD-10", "[P2] Testing & Documentation",
    "Comprehensive testing and documentation for the dashboard package.", ["dashboard", "testing", "documentation", "p2"]⟩
]

set_option maxHeartbeats 1000000 in
def STORIES : List StorySpec := [
  ⟨"AD-1", "Create package.json with dependencies", 3,
    "Set up the package.json file with all required dependencies including React, Radix UI, TanStack Query, and workspace dependency on @aigrc/core."⟩,
  ⟨"AD-1", "Configure TypeScript for dashboard", 3,
    "Create tsconfig.json with strict mode, path aliases, and composite project references."⟩,
  ⟨"AD-1", "Set up Vite build configuration", 5,
    "Configure Vite for development server and production builds with library mode for CJS/ESM output."⟩,
  ⟨"AD-1", "Configure Tailwind CSS with AIGRC theme", 5,
    "Set up Tailwind with shadcn base theme and AIGRC governance-specific colors."⟩,
  ⟨"AD-1", "Create core utility functions", 3,
    "Implement utility functions including cn() for class merging, date formatting, and risk/compliance color helpers."⟩,
  ⟨"AD-1", "Set up ESLint and Prettier", 3,
    "Configure linting and formatting to match monorepo standards."⟩,
  ⟨"AD-1", "Create type definitions", 5,
    "Define all TypeScript types for AIGRC dashboard, matching @aigrc/core schemas."⟩,
  ⟨"AD-1", "Configure package exports", 5,
    "Set up package exports for components, hooks, and types."⟩,
  ⟨"AD-2", "Adopt Button component with governance variants", 3,
    "Copy and adapt Button component with risk level and compliance variants."⟩,
  ⟨"AD-2", "Adopt Card component", 2,
    "Copy Card, CardHeader, CardContent, CardFooter components."⟩,
  ⟨"AD-2", "Adopt Badge component with risk variants", 3,
    "Copy Badge with risk level and compliance status variants."⟩,
  ⟨"AD-2", "Adopt Table components", 3,
    "Copy full table primitives with sortable headers and pagination support."⟩,
  ⟨"AD-2", "Adopt Form components (Input, Select, Textarea)", 5,
    "Copy all form primitives with validation states."⟩,
  ⟨"AD-2", "Adopt Dialog and Modal components", 5,
    "Copy Dialog primitives and create confirmation/form dialog variants."⟩,
  ⟨"AD-2", "Adopt Navigation components (Tabs, Menu)", 5,
    "Copy Tabs, dropdown menu, and navigation menu components."⟩,
  ⟨"AD-2", "Adopt Feedback components (Toast, Alert)", 5,
    "Copy Toast notifications, alerts, and progress indicators."⟩,
  ⟨"AD-2", "Adopt Data display components (Skeleton, Avatar)", 3,
    "Copy loading skeletons, avatar, and empty state components."⟩,
  ⟨"AD-2", "Create RiskLevelBadge component", 5,
    "Build governance-specific risk level badge with tooltip and animations."⟩,
  ⟨"AD-2", "Create ComplianceStatusBadge component", 5,
    "Build compliance status badge with score display and trend indicator."⟩,
  ⟨"AD-2", "Create component documentation with Storybook", 5,
    "Document all components with interactive examples."⟩,
  ⟨"AD-3", "Create AuthContext provider", 5,
    "Implement authentication context with user state management and token persistence."⟩,
  ⟨"AD-3", "Implement login/logout flow", 5,
    "Build login form, logout handling, and token storage."⟩,
  ⟨"AD-3", "Create ProtectedRoute component", 3,
    "Implement route protection with redirect and loading states."⟩,
  ⟨"AD-3", "Create PermissionGate component", 3,
    "Build permission-based rendering component."⟩,
  ⟨"AD-3", "Create RoleGate component", 3,
    "Build role-based rendering with hierarchy support."⟩,
  ⟨"AD-3", "Implement organization switching", 5,
    "Add multi-organization support with context updates."⟩,
  ⟨"AD-3", "Create permission hook (usePermissions)", 5,
    "Build hook for checking single and multiple permissions."⟩,
  ⟨"AD-3", "Add MFA support infrastructure", 3,
    "Add MFA state handling and challenge flow."⟩,
  ⟨"AD-4", "Create AssetList component", 5,
    "Build asset table with sorting, filtering, and search."⟩,
  ⟨"AD-4", "Create AssetCard display component", 5,
    "Build asset card display with risk factors and technical details."⟩,
  ⟨"AD-4", "Create AssetCardForm component", 8,
    "Build comprehensive asset card form with validation."⟩,
  ⟨"AD-4", "Create AssetCreationWizard", 8,
    "Build step-by-step asset creation with detection import."⟩,
  ⟨"AD-4", "Implement asset filtering and search", 3,
    "Add multi-filter support with URL state sync."⟩,
  ⟨"AD-4", "Create AssetDetailPage", 5,
    "Build full asset detail view with actions."⟩,
  ⟨"AD-4", "Implement asset archival flow", 3,
    "Add archive with reason and restore capability."⟩,
  ⟨"AD-4", "Create Golden Thread visualization", 5,
    "Display hash, verification status, and documentation links."⟩,
  ⟨"AD-5", "Create ScanResultsList component", 5,
    "Build scan results list with status and actions."⟩,
  ⟨"AD-5", "Create ScanResultDetail component", 5,
    "Show frameworks detected, model files, and risk indicators."⟩,
  ⟨"AD-5", "Create FrameworkCard component", 3,
    "Display framework name, version, confidence, and location."⟩,
  ⟨"AD-5", "Create ScanInitiator component", 5,
    "Build scan trigger with path input and progress."⟩,
  ⟨"AD-5", "Create AssetSuggestionView", 3,
    "Show suggested asset card with edit and create."⟩,
  ⟨"AD-5", "Implement scan history pagination", 3,
    "Add paginated list with date filter and export."⟩,
  ⟨"AD-6", "Create ComplianceOverview component", 5,
    "Build summary cards with profile selector."⟩,
  ⟨"AD-6", "Create ComplianceProfileCard component", 3,
    "Display profile details and control count."⟩,
  ⟨"AD-6", "Create ControlStatusGrid component", 8,
    "Build control grid with status indicators and filters."⟩,
  ⟨"AD-6", "Create AssessmentResultView component", 5,
    "Show assessment details, findings, and remediation."⟩,
  ⟨"AD-6", "Create ComplianceTrendChart component", 5,
    "Build time series chart with multi-profile support."⟩,
  ⟨"AD-6", "Implement assessment runner UI", 5,
    "Add asset/profile selection with progress tracking."⟩,
  ⟨"AD-6", "Create ComplianceReportExport", 3,
    "Add PDF and CSV export with date range."⟩,
  ⟨"AD-6", "Create EvidenceAttachment component", 2,
    "Add evidence upload and control linking."⟩,
  ⟨"AD-7", "Create AgentList component", 5,
    "Build active agents table with status and actions."⟩,
  ⟨"AD-7", "Create AgentDetailView component", 5,
    "Show full agent details with capabilities and budget."⟩,
  ⟨"AD-7", "Create KillSwitchControl component", 8,
    "Build terminate/pause/resume controls with confirmation."⟩,
  ⟨"AD-7", "Create CapabilityManifestViewer", 5,
    "Display tool permissions and resource restrictions."⟩,
  ⟨"AD-7", "Create BudgetGauge component", 3,
    "Show current/total budget with warning thresholds."⟩,
  ⟨"AD-7", "Create PolicyDecisionLog component", 5,
    "Display decision history with filters and metrics."⟩,
  ⟨"AD-7", "Create AgentHierarchyTree component", 5,
    "Build parent/child tree with capability decay visualization."⟩,
  ⟨"AD-7", "Create RealTimeAgentMonitor", 8,
    "Add WebSocket connection with live updates and alerts."⟩,
  ⟨"AD-8", "Create DashboardMetricsCards component", 5,
    "Build summary cards for total assets, agents, score, violations."⟩,
  ⟨"AD-8", "Create RiskDistributionChart component", 5,
    "Build pie/donut chart with click-to-filter."⟩,
  ⟨"AD-8", "Create RecentActivityFeed component", 3,
    "Display activity timeline with type icons."⟩,
  ⟨"AD-8", "Create AssetTrendChart component", 5,
    "Show assets over time by risk level."⟩,
  ⟨"AD-8", "Create ComplianceScorecard component", 5,
    "Display multi-profile scores with trends."⟩,
  ⟨"AD-8", "Create ExecutiveSummaryExport", 5,
    "Add PDF report with key metrics and trends."⟩,
  ⟨"AD-9", "Create BackendAdapter interface", 5,
    "Define abstract backend operations interface."⟩,
  ⟨"AD-9", "Implement CloudAdapter (Supabase-like)", 5,
    "Build cloud backend adapter with full API coverage."⟩,
  ⟨"AD-9", "Implement LocalAdapter (Express/PostgreSQL)", 8,
    "Build local backend adapter with direct DB access."⟩,
  ⟨"AD-9", "Create Express API server template", 8,
    "Build all endpoints with middleware and error handling."⟩,
  ⟨"AD-9", "Implement local authentication (Passport.js)", 5,
    "Add JWT strategy with session and password handling."⟩,
  ⟨"AD-9", "Create offline asset bundler", 3,
    "Bundle all dependencies and assets offline."⟩,
  ⟨"AD-9", "Create installation scripts", 2,
    "Add Windows installer and PostgreSQL setup."⟩,
  ⟨"AD-9", "Document air-gap deployment", 2,
    "Write deployment guide with security considerations."⟩,
  ⟨"AD-10", "Set up Vitest for component testing", 3,
    "Configure test runner with coverage and CI integration."⟩,
  ⟨"AD-10", "Write unit tests for hooks", 5,
    "Test all hooks with mock API client."⟩,
  ⟨"AD-10", "Write integration tests for auth flow", 5,
    "Test login/logout and permission checks."⟩,
  ⟨"AD-10", "Create API client tests", 3,
    "Test all methods with error handling."⟩,
  ⟨"AD-10", "Write component accessibility tests", 3,
    "Test ARIA compliance and keyboard navigation."⟩,
  ⟨"AD-10", "Create comprehensive README and docs", 5,
    "Write installation guide, API reference, and examples."⟩
]

/-- Lookup in the `epic_keys` dict: first match wins (labels are the dict
keys, so there is at most one). -/
def dictGet (d : List (String × String)) (k : String) : Option String :=
  (d.find? (fun p => p.1 == k)).map (fun p => p.2)

/-- Assignment `d[k] = v` on the `epic_keys` dict: replace the value when the
key is present, append otherwise (Python dicts keep insertion order). -/
def dictSet (d : List (String × String)) (k v : String) : List (String × String) :=
  if (d.map (fun p => p.1)).contains k then
    d.map (fun p => if p.1 = k then (k, v) else p)
  else d ++ [(k, v)]

/-- The request body built by `create_epic`, including the labels list. -/
def create_epic_payload (epic_data : EpicSpec) : JVal :=
  .obj [("fields", .obj [
    ("project", .obj [("key", .str PROJECT_KEY)]),
    ("summary", .str epic_data.summary),
    ("description", adfDoc epic_data.description),
    ("issuetype", .obj [("id", .str EPIC_TYPE_ID)]),
    ("labels", .arr (epic_data.labels.map JVal.str))])]

/-- The request body built by `create_story`: a `parent` reference and the
story points in `customfield_10016` (`story_data.get("points", 0)`; every
catalog story carries a points entry, modelled by the `points` field). -/
def create_story_payload (story_data : StorySpec) (parent_key : String) : JVal :=
  .obj [("fields", .obj [
    ("project", .obj [("key", .str PROJECT_KEY)]),
    ("summary", .str story_data.summary),
    ("description", adfDoc story_data.description),
    ("issuetype", .obj [("id", .str STORY_TYPE_ID)]),
    ("parent", .obj [("key", .str parent_key)]),
    (STORY_POINTS_FIELD, .num story_data.points)])]

/-- `create_epic` without the POST itself: on a 201 status return the `key`
and `id` members of the body; otherwise return `(None, None)` and print the
status code and the response text truncated to 200 characters. -/
def create_epic (response : Resp) : (Option String × Option String) × Option ErrPrint :=
  if response.status = 201 then ((some response.key, some response.id), none)
  else ((none, none), some ⟨response.status, response.body.take 200⟩)

/-- `create_story` without the POST itself: on a 201 status return the `key`
member of the body; otherwise return `None` and print the status code and
the response text truncated to 200 characters. -/
def create_story (response : Resp) : Option String × Option ErrPrint :=
  if response.status = 201 then (some response.key, none)
  else (none, some ⟨response.status, response.body.take 200⟩)

/-- One HTTP POST issued by the dashboard script, tagged with the catalog
position it was issued for. -/
inductive Call where
  | epicCall (i : Nat) (payload : JVal)
  | storyCall (s : Nat) (parent_key : String) (payload : JVal)

instance : Inhabited Call := ⟨.epicCall 0 default⟩

/-- One per-item outcome record printed by the dashboard script.  An epic
with a 201 status but a falsy key produces no record at all (no FAIL print,
no OK print); the created-story record carries the points the OK line
prints. -/
inductive Event where
  | epicCreated (i : Nat) (key : String)
  | epicFailed (i : Nat) (err : ErrPrint)
  | storyCreated (s : Nat) (key : String) (points : Nat)
  | storyFailed (s : Nat) (err : ErrPrint)
  | storySkipped (s : Nat)
deriving Repr, DecidableEq

/-- The epics phase of `main`: create every epic of `EPICS` in order,
populating the `epic_keys` dict from the successful creations only.
Returns the next call index, the POSTs, the records and the final dict. -/
def runEpics (oracle : Nat → Resp) :
    Nat → Nat → List EpicSpec → List (String × String) →
    Nat × List Call × List Event × List (String × String)
  | n, _, [], epic_keys => (n, [], [], epic_keys)
  | n, i, epic :: rest, epic_keys =>
    let response := oracle n
    let key := (create_epic response).1.1
    let evs : List Event :=
      (match (create_epic response).2 with
       | some e => [Event.epicFailed i e]
       | none => []) ++
      (if pyTruthy key then [Event.epicCreated i (key.getD "")] else [])
    let epic_keys1 :=
      if pyTruthy key then dictSet epic_keys epic.key (key.getD "") else epic_keys
    let out := runEpics oracle (n + 1) (i + 1) rest epic_keys1
    (out.1, Call.epicCall i (create_epic_payload epic) :: out.2.1,
     evs ++ out.2.2.1, out.2.2.2)

/-- What the stories phase of `main` accumulates. -/
structure StoriesOut where
  n : Nat
  calls : List Call
  events : List Event
  created_stories : Nat
  total_points : Nat

/-- The stories phase of `main`: for every story of `STORIES` in order, look
its epic label up in `epic_keys`; on a falsy result print the SKIP line and
continue without any HTTP call, otherwise create the story under the looked
up key, counting it and its points only when the creation returned a truthy
key. -/
def runStories (oracle : Nat → Resp) :
    Nat → Nat → List StorySpec → List (String × String) → StoriesOut
  | n, _, [], _ => ⟨n, [], [], 0, 0⟩
  | n, s, story :: rest, epic_keys =>
    let parent_epic := dictGet epic_keys story.epic
    if pyTruthy parent_epic then
      let pk := parent_epic.getD ""
      let response := oracle n
      let key := (create_story response).1
      let evs : List Event :=
        (match (create_story response).2 with
         | some e => [Event.storyFailed s e]
         | none => []) ++
        (if pyTruthy key then [Event.storyCreated s (key.getD "") story.points] else [])
      let out := runStories oracle (n + 1) (s + 1) rest epic_keys
      ⟨out.n, Call.storyCall s pk (create_story_payload story pk) :: out.calls,
       evs ++ out.events,
       (if pyTruthy key then 1 else 0) + out.created_stories,
       (if pyTruthy key then story.points else 0) + out.total_points⟩
    else
      let out := runStories oracle n (s + 1) rest epic_keys
      ⟨out.n, out.calls, Event.storySkipped s :: out.events,
       out.created_stories, out.total_points⟩

/-- Everything a run of the dashboard `main` accumulates. -/
structure Trace where
  calls : List Call
  events : List Event
  epic_keys : List (String × String)
  created_stories : Nat
  total_points : Nat

/-- A full run of the dashboard script's `main` against a response oracle:
the epics phase over all of `EPICS`, then the stories phase over all of
`STORIES` with the dict the epics phase built. -/
def main (oracle : Nat → Resp) : Trace :=
  let eOut := runEpics oracle 0 0 EPICS []
  let sOut := runStories oracle eOut.1 0 STORIES eOut.2.2.2
  ⟨eOut.2.1 ++ sOut.calls, eOut.2.2.1 ++ sOut.events, eOut.2.2.2,
   sOut.created_stories, sOut.total_points⟩

/-- The final tally printed by `main`. -/
structure Report where
  epics_created : Nat
  total_epics : Nat
  stories_created : Nat
  total_stories : Nat
  total_story_points : Nat
deriving Repr, DecidableEq

/-- The final tally of a run: the script prints `len(epic_keys)` as the
number of epics created, the created-stories counter, and the accumulated
`total_points`. -/
def report (oracle : Nat → Resp) : Report :=
  let t := main oracle
  { epics_created := t.epic_keys.length,
    total_epics := EPICS.length,
    stories_created := t.created_stories,
    total_stories := STORIES.length,
    total_story_points := t.total_points }

/-- The whole dashboard script process, with the module-level credential
check before any HTTP call. -/
def script (env : Env) (oracle : Nat → Resp) : List String × ExitResult Trace :=
  if env.JIRA_EMAIL = "" ∨ env.JIRA_API_TOKEN = "" then
    (credentialInstructions, .exited 1)
  else ([], .completed (main oracle))

/-- The HTTP calls issued by a whole script process. -/
def scriptCalls : List String × ExitResult Trace → List Call
  | (_, .exited _) => []
  | (_, .completed t) => t.calls

/-- Exception-aware variant of the epics phase: a transport raise propagates
(the script has no try/except). -/
def runEpicsE (oracle : Nat → CallResult) :
    Nat → Nat → List EpicSpec → List (String × String) →
    Except String (Nat × List Call × List Event × List (String × String))
  | n, _, [], epic_keys => .ok (n, [], [], epic_keys)
  | n, i, epic :: rest, epic_keys =>
    match oracle n with
    | .raise e => .error e
    | .resp response =>
      let key := (create_epic response).1.1
      let evs : List Event :=
        (match (create_epic response).2 with
         | some e => [Event.epicFailed i e]
         | none => []) ++
        (if pyTruthy key then [Event.epicCreated i (key.getD "")] else [])
      let epic_keys1 :=
        if pyTruthy key then dictSet epic_keys epic.key (key.getD "") else epic_keys
      match runEpicsE oracle (n + 1) (i + 1) rest epic_keys1 with
      | .error e => .error e
      | .ok out =>
        .ok (out.1, Call.epicCall i (create_epic_payload epic) :: out.2.1,
             evs ++ out.2.2.1, out.2.2.2)

/-- Exception-aware variant of the stories phase. -/
def runStoriesE (oracle : Nat → CallResult) :
    Nat → Nat → List StorySpec → List (String × String) →
    Except String StoriesOut
  | n, _, [], _ => .ok ⟨n, [], [], 0, 0⟩
  | n, s, story :: rest, epic_keys =>
    let parent_epic := dictGet epic_keys story.epic
    if pyTruthy parent_epic then
      let pk := parent_epic.getD ""
      match oracle n with
      | .raise e => .error e
      | .resp response =>
        let key := (create_story response).1
        let evs : List Event :=
          (match (create_story response).2 with
           | some e => [Event.storyFailed s e]
           | none => []) ++
          (if pyTruthy key then [Event.storyCreated s (key.getD "") story.points] else [])
        match runStoriesE oracle (n + 1) (s + 1) rest epic_keys with
        | .error e => .error e
        | .ok out =>
          .ok ⟨out.n, Call.storyCall s pk (create_story_payload story pk) :: out.calls,
               evs ++ out.events,
               (if pyTruthy key then 1 else 0) + out.created_stories,
               (if pyTruthy key then story.points else 0) + out.total_points⟩
    else
      match runStoriesE oracle n (s + 1) rest epic_keys with
      | .error e => .error e
      | .ok out =>
        .ok ⟨out.n, out.calls, Event.storySkipped s :: out.events,
             out.created_stories, out.total_points⟩

/-- A full run of the dashboard `main` in the exception-aware model. -/
def mainE (oracle : Nat → CallResult) : Except String Trace :=
  match runEpicsE oracle 0 0 EPICS [] with
  | .error e => .error e
  | .ok eOut =>
    match runStoriesE oracle eOut.1 0 STORIES eOut.2.2.2 with
    | .error e => .error e
    | .ok sOut =>
      .ok ⟨eOut.2.1 ++ sOut.calls, eOut.2.2.1 ++ sOut.events, eOut.2.2.2,
           sOut.created_stories, sOut.total_points⟩

end Dash

namespace Cp

/-- Is this POST a story creation? -/
def Call.isStory : Call → Bool
  | .storyCall .. => true
  | .epicCall .. => false

/-- The catalog position of the epic this POST belongs to. -/
def Call.parentIdx : Call → Nat
  | .epicCall i _ => i
  | .storyCall i _ _ _ => i

/-- Position of a POST in the CP processing order: the epic call of entry `i`
has rank `(i, 0)`, its `j`-th story call rank `(i, j + 1)`. -/
def Call.rank : Call → Nat × Nat
  | .epicCall i _ => (i, 0)
  | .storyCall i j _ _ => (i, j + 1)

/-- Is this POST a story creation for the epic at catalog position `i`? -/
def Call.isStoryAt (i : Nat) (c : Call) : Bool := c.isStory && c.parentIdx == i

/-- The CP call order: strictly increasing rank. -/
def callBefore (c d : Call) : Prop := lexLt c.rank d.rank

def Event.isEpicCreated : Event → Bool
  | .epicCreated .. => true
  | _ => false

def Event.isEpicFailed : Event → Bool
  | .epicFailed .. => true
  | _ => false

def Event.isStoryCreated : Event → Bool
  | .storyCreated .. => true
  | _ => false

def Event.isStoryFailed : Event → Bool
  | .storyFailed .. => true
  | _ => false

/-- The catalog position of the epic an outcome record belongs to. -/
def Event.parentIdx : Event → Nat
  | .epicCreated i _ => i
  | .epicFailed i _ => i
  | .storyCreated i _ _ => i
  | .storyFailed i _ _ => i

/-- Is this record an epic-created record for catalog position `i`? -/
def Event.isEpicCreatedAt (i : Nat) (e : Event) : Bool :=
  e.isEpicCreated && e.parentIdx == i

/-- Is this record an epic-failed record for catalog position `i`? -/
def Event.isEpicFailedAt (i : Nat) (e : Event) : Bool :=
  e.isEpicFailed && e.parentIdx == i

/-- Is this record a story record (created or failed) for a story of the
epic at catalog position `i`? -/
def Event.isStoryRecordAt (i : Nat) (e : Event) : Bool :=
  (e.isStoryCreated || e.isStoryFailed) && e.parentIdx == i

/-- Did the run record a successful creation of the epic at position `i`? -/
def hasEpicCreatedAt (t : Trace) (i : Nat) : Bool :=
  t.events.any (Event.isEpicCreatedAt i)

/-- The number of children in the whole CP catalog. -/
def totalStories : Nat := (EPICS_AND_STORIES.map (fun e => e.stories.length)).sum

/-- The number of story-creation POSTs a run issued. -/
def storiesAttempted (t : Trace) : Nat := t.calls.countP Call.isStory

/-- The number of children never attempted in a run (each child is attempted
at most once, so this is the catalog total minus the attempted calls). -/
def storiesSkipped (t : Trace) : Nat := totalStories - storiesAttempted t

def epicsFailedCount (t : Trace) : Nat := t.events.countP Event.isEpicFailed

def storiesFailedCount (t : Trace) : Nat := t.events.countP Event.isStoryFailed

/-- The sum of catalog points over the stories with a created record. -/
def createdStoryPoints (t : Trace) : Nat :=
  (t.events.map (fun e => match e with
     | .storyCreated i j _ =>
         ((EPICS_AND_STORIES.getD i default).stories.getD j default).points
     | _ => 0)).sum

end Cp

namespace Dash

/-- Is this POST a story creation? -/
def Call.isStory : Call → Bool
  | .storyCall .. => true
  | .epicCall .. => false

/-- The catalog position this POST was issued for. -/
def Call.idx : Call → Nat
  | .epicCall i _ => i
  | .storyCall s _ _ => s

/-- Position of a POST in the dashboard processing order: all epic calls
(phase 0, by catalog position) precede all story calls (phase 1, by catalog
position). -/
def Call.rank : Call → Nat × Nat
  | .epicCall i _ => (0, i)
  | .storyCall s _ _ => (1, s)

/-- Is this POST a story creation for the story at catalog position `s`? -/
def Call.isStoryAt (s : Nat) (c : Call) : Bool := c.isStory && c.idx == s

/-- The parent key a story POST carries (epic calls carry none). -/
def Call.parentKey : Call → Option String
  | .epicCall _ _ => none
  | .storyCall _ pk _ => some pk

/-- The dashboard call order: strictly increasing rank. -/
def callBefore (c d : Call) : Prop := lexLt c.rank d.rank

def Event.isEpicCreated : Event → Bool
  | .epicCreated .. => true
  | _ => false

def Event.isEpicFailed : Event → Bool
  | .epicFailed .. => true
  | _ => false

def Event.isStoryCreated : Event → Bool
  | .storyCreated .. => true
  | _ => false

def Event.isStoryFailed : Event → Bool
  | .storyFailed .. => true
  | _ => false

def Event.isStorySkipped : Event → Bool
  | .storySkipped .. => true
  | _ => false

/-- The catalog position an outcome record belongs to. -/
def Event.idx : Event → Nat
  | .epicCreated i _ => i
  | .epicFailed i _ => i
  | .storyCreated s _ _ => s
  | .storyFailed s _ => s
  | .storySkipped s => s

/-- Is this record an epic-created record for catalog position `i`? -/
def Event.isEpicCreatedAt (i : Nat) (e : Event) : Bool :=
  e.isEpicCreated && e.idx == i

/-- Is this record a story-failed record for catalog position `s`? -/
def Event.isStoryFailedAt (s : Nat) (e : Event) : Bool :=
  e.isStoryFailed && e.idx == s

/-- Is this record a story-created record for catalog position `s`? -/
def Event.isStoryCreatedAt (s : Nat) (e : Event) : Bool :=
  e.isStoryCreated && e.idx == s

/-- Did the run record a successful creation of the epic at position `i`? -/
def hasEpicCreatedAt (t : Trace) (i : Nat) : Bool :=
  t.events.any (Event.isEpicCreatedAt i)

def epicsFailedCount (t : Trace) : Nat := t.events.countP Event.isEpicFailed

def storiesFailedCount (t : Trace) : Nat := t.events.countP Event.isStoryFailed

def storiesSkippedCount (t : Trace) : Nat := t.events.countP Event.isStorySkipped

/-- The points a record contributes: the points printed on an OK story line,
0 for every other record. -/
def eventPoints : Event → Nat
  | .storyCreated _ _ pts => pts
  | _ => 0

/-- The sum of points over the stories with a created record. -/
def createdStoryPoints (t : Trace) : Nat := (t.events.map eventPoints).sum

end Dash

/-- A response oracle is well formed when every 201 response carries a
nonempty key, as the remote interface promises (the newly assigned key). -/
def WFOracle (oracle : Nat → Resp) : Prop :=
  ∀ n, (oracle n).status = 201 → (oracle n).key ≠ ""

/-- A client whose every call succeeds: HTTP 201, key `K`, id `1`. -/
def allOk : Nat → Resp := fun _ => ⟨201, "", "K", "1"⟩

/-- A client whose first call returns HTTP 400 with body `err`, while every
later call succeeds with key `K`. -/
def failFirst : Nat → Resp := fun n =>
  if n = 0 then ⟨400, "err", "", ""⟩ else ⟨201, "", "K", "1"⟩

/-- A transport that raises a connection error on the first call. -/
def connectionFail : Nat → CallResult :=
  fun _ => .raise "requests.exceptions.ConnectionError"

/-- A 201-character response body. -/
def longBody : String := String.mk (List.replicate 201 'x')

/-- A failing response whose body is longer than 200 characters. -/
def longResp : Resp := ⟨404, longBody, "", ""⟩

@[simp] theorem cpAppend_calls (a b : Cp.Trace) :
    (a.append b).calls = a.calls ++ b.calls := rfl

@[simp] theorem cpAppend_events (a b : Cp.Trace) :
    (a.append b).events = a.events ++ b.events := rfl

@[simp] theorem cpAppend_created_epics (a b : Cp.Trace) :
    (a.append b).created_epics = a.created_epics + b.created_epics := rfl

@[simp] theorem cpAppend_created_stories (a b : Cp.Trace) :
    (a.append b).created_stories = a.created_stories + b.created_stories := rfl

@[simp] theorem cpNil_calls : Cp.Trace.nil.calls = [] := rfl

@[simp] theorem cpNil_events : Cp.Trace.nil.events = [] := rfl

@[simp] theorem cpNil_created_epics : Cp.Trace.nil.created_epics = 0 := rfl

@[simp] theorem cpNil_created_stories : Cp.Trace.nil.created_stories = 0 := rfl

theorem cpRunStories_calls_mem (oracle : Nat → Resp) (i : Nat) (ek : String) :
    ∀ (stories : List Cp.StorySpec) (n j : Nat),
      ∀ c ∈ (Cp.runStories oracle i ek n j stories).2.calls,
        ∃ j2 p, c = Cp.Call.storyCall i j2 ek p ∧ j ≤ j2
  | [], n, j => by simp [Cp.runStories]
  | story :: rest, n, j => by
    intro c hc
    simp only [Cp.runStories, cpAppend_calls, List.mem_append, List.mem_singleton,
      List.cons_append, List.nil_append, List.mem_cons] at hc
    rcases hc with hc | hc
    · exact ⟨j, _, hc, le_refl j⟩
    · obtain ⟨j2, p, hcp, hj⟩ := cpRunStories_calls_mem oracle i ek rest (n + 1) (j + 1) c hc
      exact ⟨j2, p, hcp, Nat.le_of_succ_le hj⟩

theorem cpRunStories_calls_length (oracle : Nat → Resp) (i : Nat) (ek : String) :
    ∀ (stories : List Cp.StorySpec) (n j : Nat),
      (Cp.runStories oracle i ek n j stories).2.calls.length = stories.length
  | [], n, j => by simp [Cp.runStories]
  | story :: rest, n, j => by
    simp [Cp.runStories, cpRunStories_calls_length oracle i ek rest (n + 1) (j + 1)]

theorem cpRunStories_events_mem (oracle : Nat → Resp) (i : Nat) (ek : String) :
    ∀ (stories : List Cp.StorySpec) (n j : Nat),
      ∀ e ∈ (Cp.runStories oracle i ek n j stories).2.events,
        (e.isStoryCreated || e.isStoryFailed) = true ∧ e.parentIdx = i
  | [], n, j => by simp [Cp.runStories]
  | story :: rest, n, j => by
    intro e he
    simp only [Cp.runStories, cpAppend_events, List.cons_append, List.nil_append,
      List.mem_cons] at he
    rcases he with he | he
    · subst he
      by_cases h : pyTruthy (Cp.create_issue (oracle n)).1 <;>
        simp [h, Cp.Event.isStoryCreated, Cp.Event.isStoryFailed, Cp.Event.parentIdx]
    · exact cpRunStories_events_mem oracle i ek rest (n + 1) (j + 1) e he

theorem cpRunStories_events_length (oracle : Nat → Resp) (i : Nat) (ek : String) :
    ∀ (stories : List Cp.StorySpec) (n j : Nat),
      (Cp.runStories oracle i ek n j stories).2.events.length = stories.length
  | [], n, j => by simp [Cp.runStories]
  | story :: rest, n, j => by
    simp [Cp.runStories, cpRunStories_events_length oracle i ek rest (n + 1) (j + 1)]

theorem cpRunStories_created_epics (oracle : Nat → Resp) (i : Nat) (ek : String) :
    ∀ (stories : List Cp.StorySpec) (n j : Nat),
      (Cp.runStories oracle i ek n j stories).2.created_epics = 0
  | [], n, j => by simp [Cp.runStories]
  | story :: rest, n, j => by
    simp [Cp.runStories, cpRunStories_created_epics oracle i ek rest (n + 1) (j + 1)]

theorem cpRunStories_counts (oracle : Nat → Resp) (i : Nat) (ek : String) :
    ∀ (stories : List Cp.StorySpec) (n j : Nat),
      (Cp.runStories oracle i ek n j stories).2.created_stories =
        (Cp.runStories oracle i ek n j stories).2.events.countP Cp.Event.isStoryCreated ∧
      (Cp.runStories oracle i ek n j stories).2.events.countP Cp.Event.isStoryCreated +
        (Cp.runStories oracle i ek n j stories).2.events.countP Cp.Event.isStoryFailed =
        stories.length
  | [], n, j => by simp [Cp.runStories]
  | story :: rest, n, j => by
    obtain ⟨ih1, ih2⟩ := cpRunStories_counts oracle i ek rest (n + 1) (j + 1)
    by_cases h : pyTruthy (Cp.create_issue (oracle n)).1 <;>
      simp [Cp.runStories, h, List.countP_cons, Cp.Event.isStoryCreated,
        Cp.Event.isStoryFailed, ih1, ih2] <;> omega

theorem cpRank_fst (c : Cp.Call) : (Cp.Call.rank c).1 = c.parentIdx := by
  cases c <;> rfl

theorem cpRunStories_pairwise (oracle : Nat → Resp) (i : Nat) (ek : String) :
    ∀ (stories : List Cp.StorySpec) (n j : Nat),
      (Cp.runStories oracle i ek n j stories).2.calls.Pairwise Cp.callBefore
  | [], n, j => by simp [Cp.runStories]
  | story :: rest, n, j => by
    simp only [Cp.runStories, cpAppend_calls, List.cons_append, List.nil_append]
    refine List.Pairwise.cons ?_ (cpRunStories_pairwise oracle i ek rest (n + 1) (j + 1))
    intro c hc
    obtain ⟨j2, p, rfl, hj⟩ := cpRunStories_calls_mem oracle i ek rest (n + 1) (j + 1) c hc
    exact Or.inr ⟨rfl, Nat.lt_succ_of_le hj⟩

theorem cpEvent_story_not_epic (e : Cp.Event)
    (h : (e.isStoryCreated || e.isStoryFailed) = true) :
    e.isEpicCreated = false ∧ e.isEpicFailed = false := by
  cases e <;> simp_all [Cp.Event.isEpicCreated, Cp.Event.isEpicFailed,
    Cp.Event.isStoryCreated, Cp.Event.isStoryFailed]

theorem cpRunEpics_calls_mem (oracle : Nat → Resp) :
    ∀ (groups : List Cp.EpicGroup) (n i : Nat),
      ∀ c ∈ (Cp.runEpics oracle n i groups).2.calls, i ≤ c.parentIdx
  | [], n, i => by simp [Cp.runEpics]
  | g :: rest, n, i => by
    intro c hc
    by_cases h : pyTruthy (Cp.create_issue (oracle n)).1
    · simp only [Cp.runEpics, if_pos h, cpAppend_calls, List.cons_append,
        List.nil_append, List.mem_cons, List.mem_append] at hc
      rcases hc with rfl | hc | hc
      · simp [Cp.Call.parentIdx]
      · obtain ⟨j2, p, rfl, _⟩ :=
          cpRunStories_calls_mem oracle i _ g.stories (n + 1) 0 c hc
        simp [Cp.Call.parentIdx]
      · exact le_trans (Nat.le_succ i) (cpRunEpics_calls_mem oracle rest _ (i + 1) c hc)
    · simp only [Cp.runEpics, if_neg h, cpAppend_calls, List.cons_append,
        List.nil_append, List.mem_cons] at hc
      rcases hc with rfl | hc
      · simp [Cp.Call.parentIdx]
      · exact le_trans (Nat.le_succ i) (cpRunEpics_calls_mem oracle rest (n + 1) (i + 1) c hc)

theorem cpRunEpics_pairwise (oracle : Nat → Resp) :
    ∀ (groups : List Cp.EpicGroup) (n i : Nat),
      (Cp.runEpics oracle n i groups).2.calls.Pairwise Cp.callBefore
  | [], n, i => by simp [Cp.runEpics]
  | g :: rest, n, i => by
    by_cases h : pyTruthy (Cp.create_issue (oracle n)).1
    · simp only [Cp.runEpics, if_pos h, cpAppend_calls, List.cons_append, List.nil_append]
      refine List.Pairwise.cons ?_ (List.pairwise_append.2
        ⟨cpRunStories_pairwise oracle i _ g.stories (n + 1) 0,
         cpRunEpics_pairwise oracle rest _ (i + 1), ?_⟩)
      · intro c hc
        rcases List.mem_append.1 hc with hc | hc
        · obtain ⟨j2, p, rfl, _⟩ :=
            cpRunStories_calls_mem oracle i _ g.stories (n + 1) 0 c hc
          exact Or.inr ⟨rfl, Nat.succ_pos j2⟩
        · have hge := cpRunEpics_calls_mem oracle rest _ (i + 1) c hc
          exact Or.inl (by show i < (Cp.Call.rank c).1; rw [cpRank_fst]; omega)
      · intro a ha b hb
        obtain ⟨j2, p, rfl, _⟩ :=
          cpRunStories_calls_mem oracle i _ g.stories (n + 1) 0 a ha
        have hge := cpRunEpics_calls_mem oracle rest _ (i + 1) b hb
        exact Or.inl (by show i < (Cp.Call.rank b).1; rw [cpRank_fst]; omega)
    · simp only [Cp.runEpics, if_neg h, cpAppend_calls, List.cons_append, List.nil_append]
      refine List.Pairwise.cons ?_ (cpRunEpics_pairwise oracle rest (n + 1) (i + 1))
      intro c hc
      have hge := cpRunEpics_calls_mem oracle rest (n + 1) (i + 1) c hc
      exact Or.inl (by show i < (Cp.Call.rank c).1; rw [cpRank_fst]; omega)

theorem cpRunStories_no_epic_records (oracle : Nat → Resp) (i : Nat) (ek : String)
    (stories : List Cp.StorySpec) (n j : Nat) :
    (Cp.runStories oracle i ek n j stories).2.events.countP Cp.Event.isEpicCreated = 0 ∧
    (Cp.runStories oracle i ek n j stories).2.events.countP Cp.Event.isEpicFailed = 0 := by
  constructor <;>
  · rw [List.countP_eq_zero]
    intro e he
    have h := cpRunStories_events_mem oracle i ek stories n j e he
    have h2 := cpEvent_story_not_epic e h.1
    simp [h2.1, h2.2]

theorem cpEvent_notAt (m : Nat) (e : Cp.Event) (hm : e.parentIdx ≠ m) :
    Cp.Event.isEpicCreatedAt m e = false ∧ Cp.Event.isEpicFailedAt m e = false ∧
    Cp.Event.isStoryRecordAt m e = false := by
  simp [Cp.Event.isEpicCreatedAt, Cp.Event.isEpicFailedAt, Cp.Event.isStoryRecordAt, hm]

theorem cpCall_notAt (m : Nat) (c : Cp.Call) (hm : c.parentIdx ≠ m) :
    Cp.Call.isStoryAt m c = false := by
  simp [Cp.Call.isStoryAt, hm]

theorem cpRunEpics_events_mem (oracle : Nat → Resp) :
    ∀ (groups : List Cp.EpicGroup) (n i : Nat),
      ∀ e ∈ (Cp.runEpics oracle n i groups).2.events, i ≤ e.parentIdx
  | [], n, i => by simp [Cp.runEpics]
  | g :: rest, n, i => by
    intro e he
    by_cases h : pyTruthy (Cp.create_issue (oracle n)).1
    · simp only [Cp.runEpics, if_pos h, cpAppend_events, List.cons_append,
        List.nil_append, List.mem_cons, List.mem_append] at he
      rcases he with rfl | he | he
      · simp [Cp.Event.parentIdx]
      · have hm := cpRunStories_events_mem oracle i _ g.stories (n + 1) 0 e he
        omega
      · exact le_trans (Nat.le_succ i) (cpRunEpics_events_mem oracle rest _ (i + 1) e he)
    · simp only [Cp.runEpics, if_neg h, cpAppend_events, List.cons_append,
        List.nil_append, List.mem_cons] at he
      rcases he with rfl | he
      · simp [Cp.Event.parentIdx]
      · exact le_trans (Nat.le_succ i) (cpRunEpics_events_mem oracle rest (n + 1) (i + 1) e he)

theorem cpRunEpics_records (oracle : Nat → Resp) :
    ∀ (groups : List Cp.EpicGroup) (n i : Nat),
      ((Cp.runEpics oracle n i groups).2.events.countP Cp.Event.isEpicCreated +
        (Cp.runEpics oracle n i groups).2.events.countP Cp.Event.isEpicFailed
          = groups.length) ∧
      ((Cp.runEpics oracle n i groups).2.created_epics =
        (Cp.runEpics oracle n i groups).2.events.countP Cp.Event.isEpicCreated) ∧
      ((Cp.runEpics oracle n i groups).2.created_stories =
        (Cp.runEpics oracle n i groups).2.events.countP Cp.Event.isStoryCreated)
  | [], n, i => by simp [Cp.runEpics]
  | g :: rest, n, i => by
    by_cases h : pyTruthy (Cp.create_issue (oracle n)).1
    · obtain ⟨ih1, ih2, ih3⟩ := cpRunEpics_records oracle rest
        (Cp.runStories oracle i ((Cp.create_issue (oracle n)).1.getD "") (n + 1) 0
          g.stories).1 (i + 1)
      obtain ⟨hz1, hz2⟩ := cpRunStories_no_epic_records oracle i
        ((Cp.create_issue (oracle n)).1.getD "") g.stories (n + 1) 0
      have hce := cpRunStories_created_epics oracle i
        ((Cp.create_issue (oracle n)).1.getD "") g.stories (n + 1) 0
      have hcs := (cpRunStories_counts oracle i
        ((Cp.create_issue (oracle n)).1.getD "") g.stories (n + 1) 0).1
      simp only [Cp.runEpics, if_pos h, cpAppend_events, cpAppend_created_epics,
        cpAppend_created_stories, List.cons_append, List.nil_append,
        List.countP_cons, List.countP_append, List.length_cons]
      simp [Cp.Event.isEpicCreated, Cp.Event.isEpicFailed, Cp.Event.isStoryCreated]
      omega
    · obtain ⟨ih1, ih2, ih3⟩ := cpRunEpics_records oracle rest (n + 1) (i + 1)
      simp only [Cp.runEpics, if_neg h, cpAppend_events, cpAppend_created_epics,
        cpAppend_created_stories, List.cons_append, List.nil_append,
        List.countP_cons, List.countP_append, List.length_cons]
      simp [Cp.Event.isEpicCreated, Cp.Event.isEpicFailed, Cp.Event.isStoryCreated]
      omega

theorem cpRunStories_calls_all_story (oracle : Nat → Resp) (i : Nat) (ek : String)
    (stories : List Cp.StorySpec) (n j : Nat) :
    (Cp.runStories oracle i ek n j stories).2.calls.countP Cp.Call.isStory
      = stories.length := by
  rw [← cpRunStories_calls_length oracle i ek stories n j, List.countP_eq_length]
  intro c hc
  obtain ⟨j2, p, rfl, _⟩ := cpRunStories_calls_mem oracle i ek stories n j c hc
  rfl

theorem cpRunStories_storyAt_count (oracle : Nat → Resp) (i : Nat) (ek : String)
    (stories : List Cp.StorySpec) (n j : Nat) :
    (Cp.runStories oracle i ek n j stories).2.calls.countP (Cp.Call.isStoryAt i)
      = stories.length := by
  rw [← cpRunStories_calls_length oracle i ek stories n j, List.countP_eq_length]
  intro c hc
  obtain ⟨j2, p, rfl, _⟩ := cpRunStories_calls_mem oracle i ek stories n j c hc
  simp [Cp.Call.isStoryAt, Cp.Call.isStory, Cp.Call.parentIdx]

theorem cpRunStories_recordAt_count (oracle : Nat → Resp) (i : Nat) (ek : String)
    (stories : List Cp.StorySpec) (n j : Nat) :
    (Cp.runStories oracle i ek n j stories).2.events.countP (Cp.Event.isStoryRecordAt i)
      = stories.length := by
  rw [← cpRunStories_events_length oracle i ek stories n j, List.countP_eq_length]
  intro e he
  have h := cpRunStories_events_mem oracle i ek stories n j e he
  simp [Cp.Event.isStoryRecordAt, h.1, h.2]

theorem cpRunEpics_story_totals (oracle : Nat → Resp) :
    ∀ (groups : List Cp.EpicGroup) (n i : Nat),
      ((Cp.runEpics oracle n i groups).2.calls.countP Cp.Call.isStory =
        (Cp.runEpics oracle n i groups).2.events.countP Cp.Event.isStoryCreated +
        (Cp.runEpics oracle n i groups).2.events.countP Cp.Event.isStoryFailed) ∧
      ((Cp.runEpics oracle n i groups).2.calls.countP Cp.Call.isStory ≤
        (groups.map (fun g => g.stories.length)).sum)
  | [], n, i => by simp [Cp.runEpics]
  | g :: rest, n, i => by
    by_cases h : pyTruthy (Cp.create_issue (oracle n)).1
    · obtain ⟨ih1, ih2⟩ := cpRunEpics_story_totals oracle rest
        (Cp.runStories oracle i ((Cp.create_issue (oracle n)).1.getD "") (n + 1) 0
          g.stories).1 (i + 1)
      have hca := cpRunStories_calls_all_story oracle i
        ((Cp.create_issue (oracle n)).1.getD "") g.stories (n + 1) 0
      have hcs := (cpRunStories_counts oracle i
        ((Cp.create_issue (oracle n)).1.getD "") g.stories (n + 1) 0).2
      simp only [Cp.runEpics, if_pos h, cpAppend_calls, cpAppend_events,
        List.cons_append, List.nil_append, List.countP_cons, List.countP_append,
        List.map_cons, List.sum_cons]
      simp [Cp.Call.isStory, Cp.Event.isStoryCreated, Cp.Event.isStoryFailed]
      omega
    · obtain ⟨ih1, ih2⟩ := cpRunEpics_story_totals oracle rest (n + 1) (i + 1)
      simp only [Cp.runEpics, if_neg h, cpAppend_calls, cpAppend_events,
        List.cons_append, List.nil_append, List.countP_cons, List.countP_append,
        List.map_cons, List.sum_cons]
      simp [Cp.Call.isStory, Cp.Event.isStoryCreated, Cp.Event.isStoryFailed]
      omega

theorem cpRunEpics_storyAt (oracle : Nat → Resp) :
    ∀ (groups : List Cp.EpicGroup) (n i k : Nat),
      ((Cp.runEpics oracle n i groups).2.calls.countP (Cp.Call.isStoryAt (i + k)) =
        if (Cp.runEpics oracle n i groups).2.events.any (Cp.Event.isEpicCreatedAt (i + k))
        then (groups.getD k default).stories.length else 0) ∧
      ((Cp.runEpics oracle n i groups).2.events.countP (Cp.Event.isStoryRecordAt (i + k)) =
        if (Cp.runEpics oracle n i groups).2.events.any (Cp.Event.isEpicCreatedAt (i + k))
        then (groups.getD k default).stories.length else 0)
  | [], n, i, k => by simp [Cp.runEpics]
  | g :: rest, n, i, k => by
    by_cases h : pyTruthy (Cp.create_issue (oracle n)).1
    · have hmemC := cpRunEpics_calls_mem oracle rest
        (Cp.runStories oracle i ((Cp.create_issue (oracle n)).1.getD "") (n + 1) 0
          g.stories).1 (i + 1)
      have hmemE := cpRunEpics_events_mem oracle rest
        (Cp.runStories oracle i ((Cp.create_issue (oracle n)).1.getD "") (n + 1) 0
          g.stories).1 (i + 1)
      have hmemCi := cpRunStories_calls_mem oracle i
        ((Cp.create_issue (oracle n)).1.getD "") g.stories (n + 1) 0
      have hmemEi := cpRunStories_events_mem oracle i
        ((Cp.create_issue (oracle n)).1.getD "") g.stories (n + 1) 0
      cases k with
      | zero =>
        have hrestC : (Cp.runEpics oracle
            (Cp.runStories oracle i ((Cp.create_issue (oracle n)).1.getD "") (n + 1) 0
              g.stories).1 (i + 1) rest).2.calls.countP (Cp.Call.isStoryAt i) = 0 :=
          List.countP_eq_zero.2 (fun c hc => by
            have h2 := hmemC c hc
            simp [cpCall_notAt i c (by omega)])
        have hrestE : (Cp.runEpics oracle
            (Cp.runStories oracle i ((Cp.create_issue (oracle n)).1.getD "") (n + 1) 0
              g.stories).1 (i + 1) rest).2.events.countP (Cp.Event.isStoryRecordAt i) = 0 :=
          List.countP_eq_zero.2 (fun e he => by
            have h2 := hmemE e he
            simp [(cpEvent_notAt i e (by omega)).2.2])
        have hin1 := cpRunStories_storyAt_count oracle i
          ((Cp.create_issue (oracle n)).1.getD "") g.stories (n + 1) 0
        have hin2 := cpRunStories_recordAt_count oracle i
          ((Cp.create_issue (oracle n)).1.getD "") g.stories (n + 1) 0
        simp only [Nat.add_zero, Cp.runEpics, if_pos h, cpAppend_calls, cpAppend_events,
          List.cons_append, List.nil_append, List.countP_cons, List.countP_append,
          List.any_cons, List.any_append, List.getD_cons_zero]
        simp [Cp.Event.isEpicCreatedAt, Cp.Event.isEpicCreated, Cp.Event.parentIdx,
          Cp.Event.isStoryRecordAt, Cp.Event.isStoryCreated, Cp.Event.isStoryFailed,
          Cp.Call.isStoryAt, Cp.Call.isStory, hrestC, hrestE, hin1, hin2]
      | succ k =>
        obtain ⟨ih1, ih2⟩ := cpRunEpics_storyAt oracle rest
          (Cp.runStories oracle i ((Cp.create_issue (oracle n)).1.getD "") (n + 1) 0
            g.stories).1 (i + 1) k
        have hik : i + (k + 1) = (i + 1) + k := by omega
        have hinC : (Cp.runStories oracle i ((Cp.create_issue (oracle n)).1.getD "")
            (n + 1) 0 g.stories).2.calls.countP (Cp.Call.isStoryAt (i + (k + 1))) = 0 :=
          List.countP_eq_zero.2 (fun c hc => by
            obtain ⟨j2, p, rfl, _⟩ := hmemCi c hc
            simp [Cp.Call.isStoryAt, Cp.Call.parentIdx])
        have hinE : (Cp.runStories oracle i ((Cp.create_issue (oracle n)).1.getD "")
            (n + 1) 0 g.stories).2.events.countP
              (Cp.Event.isStoryRecordAt (i + (k + 1))) = 0 :=
          List.countP_eq_zero.2 (fun e he => by
            have h2 := hmemEi e he
            simp [(cpEvent_notAt (i + (k + 1)) e (by omega)).2.2])
        have hinA : (Cp.runStories oracle i ((Cp.create_issue (oracle n)).1.getD "")
            (n + 1) 0 g.stories).2.events.any
              (Cp.Event.isEpicCreatedAt (i + (k + 1))) = false := by
          rw [List.any_eq_false]
          intro e he
          have h2 := hmemEi e he
          simp [(cpEvent_notAt (i + (k + 1)) e (by omega)).1]
        simp only [Cp.runEpics, if_pos h, cpAppend_calls, cpAppend_events,
          List.cons_append, List.nil_append, List.countP_cons, List.countP_append,
          List.any_cons, List.any_append, List.getD_cons_succ]
        rw [hik] at hinC hinE hinA ⊢
        have hne : i ≠ i + 1 + k := by omega
        simp [Cp.Event.isEpicCreatedAt, Cp.Event.isEpicCreated, Cp.Event.parentIdx,
          Cp.Call.isStoryAt, Cp.Call.isStory, Cp.Event.isStoryRecordAt,
          Cp.Event.isStoryCreated, Cp.Event.isStoryFailed,
          hinC, hinE, hinA, ih1, ih2, hne]
    · have hmemC := cpRunEpics_calls_mem oracle rest (n + 1) (i + 1)
      have hmemE := cpRunEpics_events_mem oracle rest (n + 1) (i + 1)
      cases k with
      | zero =>
        have hrestC : (Cp.runEpics oracle (n + 1) (i + 1) rest).2.calls.countP
            (Cp.Call.isStoryAt i) = 0 :=
          List.countP_eq_zero.2 (fun c hc => by
            have h2 := hmemC c hc
            simp [cpCall_notAt i c (by omega)])
        have hrestE : (Cp.runEpics oracle (n + 1) (i + 1) rest).2.events.countP
            (Cp.Event.isStoryRecordAt i) = 0 :=
          List.countP_eq_zero.2 (fun e he => by
            have h2 := hmemE e he
            simp [(cpEvent_notAt i e (by omega)).2.2])
        have hrestA : (Cp.runEpics oracle (n + 1) (i + 1) rest).2.events.any
            (Cp.Event.isEpicCreatedAt i) = false := by
          rw [List.any_eq_false]
          intro e he
          have h2 := hmemE e he
          simp [(cpEvent_notAt i e (by omega)).1]
        simp only [Nat.add_zero, Cp.runEpics, if_neg h, cpAppend_calls, cpAppend_events,
          List.cons_append, List.nil_append, List.countP_cons, List.countP_append,
          List.any_cons, List.any_append]
        simp [Cp.Event.isEpicCreatedAt, Cp.Event.isEpicCreated, Cp.Event.parentIdx,
          Cp.Event.isStoryRecordAt, Cp.Event.isStoryCreated, Cp.Event.isStoryFailed,
          Cp.Call.isStoryAt, Cp.Call.isStory, hrestC, hrestE, hrestA]
      | succ k =>
        obtain ⟨ih1, ih2⟩ := cpRunEpics_storyAt oracle rest (n + 1) (i + 1) k
        have hik : i + (k + 1) = (i + 1) + k := by omega
        simp only [Cp.runEpics, if_neg h, cpAppend_calls, cpAppend_events,
          List.cons_append, List.nil_append, List.countP_cons, List.countP_append,
          List.any_cons, List.any_append, List.getD_cons_succ]
        rw [hik]
        have hne : i ≠ i + 1 + k := by omega
        simp [Cp.Event.isEpicCreatedAt, Cp.Event.isEpicCreated, Cp.Event.parentIdx,
          Cp.Call.isStoryAt, Cp.Call.isStory, Cp.Event.isStoryRecordAt,
          Cp.Event.isStoryCreated, Cp.Event.isStoryFailed, ih1, ih2, hne]

theorem cpRunEpics_parent_key (oracle : Nat → Resp) :
    ∀ (groups : List Cp.EpicGroup) (n i : Nat),
      ∀ c ∈ (Cp.runEpics oracle n i groups).2.calls,
        ∀ i2 j ek p, c = Cp.Call.storyCall i2 j ek p →
          Cp.Event.epicCreated i2 ek ∈ (Cp.runEpics oracle n i groups).2.events
  | [], n, i => by simp [Cp.runEpics]
  | g :: rest, n, i => by
    intro c hc i2 j ek p hcp
    by_cases h : pyTruthy (Cp.create_issue (oracle n)).1
    · simp only [Cp.runEpics, if_pos h, cpAppend_calls, cpAppend_events,
        List.cons_append, List.nil_append, List.mem_cons, List.mem_append] at hc ⊢
      rcases hc with rfl | hc | hc
      · exact absurd hcp (by simp)
      · obtain ⟨j2, p2, rfl, _⟩ :=
          cpRunStories_calls_mem oracle i _ g.stories (n + 1) 0 c hc
        injection hcp with h1 h2 h3 h4
        exact Or.inl (by rw [← h1, ← h3])
      · exact Or.inr (Or.inr
          (cpRunEpics_parent_key oracle rest _ (i + 1) c hc i2 j ek p hcp))
    · simp only [Cp.runEpics, if_neg h, cpAppend_calls, cpAppend_events,
        List.cons_append, List.nil_append, List.mem_cons] at hc ⊢
      rcases hc with rfl | hc
      · exact absurd hcp (by simp)
      · exact Or.inr (cpRunEpics_parent_key oracle rest (n + 1) (i + 1) c hc i2 j ek p hcp)

theorem cpRunStoriesE_resp (f : Nat → Resp) (i : Nat) (ek : String) :
    ∀ (stories : List Cp.StorySpec) (n j : Nat),
      Cp.runStoriesE (fun m => CallResult.resp (f m)) i ek n j stories =
        .ok (Cp.runStories f i ek n j stories)
  | [], n, j => rfl
  | story :: rest, n, j => by
    simp only [Cp.runStoriesE, Cp.runStories,
      cpRunStoriesE_resp f i ek rest (n + 1) (j + 1)]

theorem cpRunEpicsE_resp (f : Nat → Resp) :
    ∀ (groups : List Cp.EpicGroup) (n i : Nat),
      Cp.runEpicsE (fun m => CallResult.resp (f m)) n i groups =
        .ok (Cp.runEpics f n i groups)
  | [], n, i => rfl
  | g :: rest, n, i => by
    by_cases h : pyTruthy (Cp.create_issue (f n)).1
    · simp only [Cp.runEpicsE, Cp.runEpics, if_pos h,
        cpRunStoriesE_resp f i ((Cp.create_issue (f n)).1.getD "") g.stories (n + 1) 0,
        cpRunEpicsE_resp f rest
          (Cp.runStories f i ((Cp.create_issue (f n)).1.getD "") (n + 1) 0 g.stories).1
          (i + 1)]
    · simp only [Cp.runEpicsE, Cp.runEpics, if_neg h,
        cpRunEpicsE_resp f rest (n + 1) (i + 1)]

theorem cpMainE_resp (f : Nat → Resp) :
    Cp.mainE (fun m => CallResult.resp (f m)) = .ok (Cp.main f) := by
  simp only [Cp.mainE, Cp.main, cpRunEpicsE_resp f Cp.EPICS_AND_STORIES 0 0]

theorem dashFind_update (k v : String) :
    ∀ d : List (String × String),
      (List.map (fun p => if p.1 = k then (k, v) else p) d).find? (fun p => p.1 == k) =
        if (d.map (fun p => p.1)).contains k then some (k, v) else none
  | [] => by simp
  | p :: rest => by
    by_cases hpk : p.1 = k
    · have h1 : ((k, v).1 == k) = true := by simp
      have h2 : (p.1 == k) = true := by simp [hpk]
      have h3 : (k == p.1) = true := by simp [hpk]
      simp [List.map_cons, if_pos hpk, List.contains_cons, List.find?, h1, h2, h3]
    · have h2 : (p.1 == k) = false := by simp [hpk]
      have h3 : (k == p.1) = false := by
        simp only [beq_eq_false_iff_ne]
        exact fun hc => hpk hc.symm
      simp only [List.map_cons, if_neg hpk, List.contains_cons, List.find?, h2,
        h3, Bool.false_or, dashFind_update k v rest]

theorem dashFind_append_none {p : String × String → Bool}
    {l1 l2 : List (String × String)} (h : l1.find? p = none) :
    (l1 ++ l2).find? p = l2.find? p := by
  induction l1 with
  | nil => simp
  | cons a rest ih =>
    cases ha : p a with
    | true =>
      simp only [List.find?, ha] at h
      exact absurd h (by simp)
    | false =>
      simp only [List.find?, ha] at h
      rw [List.cons_append]
      simp only [List.find?, ha]
      exact ih h

theorem dashFind_not_contains {k : String} {d : List (String × String)}
    (h : (d.map (fun p => p.1)).contains k = false) :
    d.find? (fun p => p.1 == k) = none := by
  rw [List.find?_eq_none]
  intro kv hkv
  intro hcon
  have hm : kv.1 ∈ d.map (fun p => p.1) := List.mem_map.2 ⟨kv, hkv, rfl⟩
  have h2 : (d.map (fun p => p.1)).contains k = true := by
    rw [List.contains_eq_any_beq]
    exact List.any_eq_true.2 ⟨kv.1, hm, by simpa using (beq_iff_eq.1 hcon).symm⟩
  rw [h2] at h
  exact Bool.noConfusion h

theorem dictGet_dictSet_self (d : List (String × String)) (k v : String) :
    Dash.dictGet (Dash.dictSet d k v) k = some v := by
  unfold Dash.dictGet Dash.dictSet
  by_cases hk : (d.map (fun p => p.1)).contains k
  · rw [if_pos hk, dashFind_update k v d, if_pos hk]
    rfl
  · rw [if_neg hk,
      dashFind_append_none (dashFind_not_contains (Bool.eq_false_iff.2 hk))]
    simp

theorem dashFind_update_ne {k k' : String} (v : String) (h : ¬(k' = k)) :
    ∀ d : List (String × String),
      (List.map (fun p => if p.1 = k then (k, v) else p) d).find? (fun p => p.1 == k') =
        d.find? (fun p => p.1 == k')
  | [] => rfl
  | p :: rest => by
    by_cases hpk : p.1 = k
    · have h1 : ((k, v).1 == k') = false := by
        simp only [beq_eq_false_iff_ne]
        exact fun hc => h hc.symm
      have h2 : (p.1 == k') = false := by
        rw [hpk]
        simp only [beq_eq_false_iff_ne]
        exact fun hc => h hc.symm
      simp only [List.map_cons, if_pos hpk, List.find?, h1, h2]
      exact dashFind_update_ne v h rest
    · cases hp : (p.1 == k') with
      | true => simp only [List.map_cons, if_neg hpk, List.find?, hp]
      | false =>
        simp only [List.map_cons, if_neg hpk, List.find?, hp]
        exact dashFind_update_ne v h rest

theorem dashFind_append_single_ne {k k' v : String} (h : (k == k') = false) :
    ∀ d : List (String × String),
      (d ++ [(k, v)]).find? (fun p => p.1 == k') = d.find? (fun p => p.1 == k')
  | [] => by
    have h1 : ((k, v).1 == k') = false := by simpa using h
    simp only [List.nil_append, List.find?, h1]
  | p :: rest => by
    rw [List.cons_append]
    cases hp : (p.1 == k') with
    | true => simp only [List.find?, hp]
    | false =>
      simp only [List.find?, hp]
      exact dashFind_append_single_ne h rest

theorem dashDictGet_set_ne {k k' : String} (v : String)
    (h : ¬(k' = k)) (d : List (String × String)) :
    Dash.dictGet (Dash.dictSet d k v) k' = Dash.dictGet d k' := by
  unfold Dash.dictGet Dash.dictSet
  by_cases hk : (d.map (fun p => p.1)).contains k
  · rw [if_pos hk, dashFind_update_ne v h d]
  · rw [if_neg hk, dashFind_append_single_ne (by simpa using fun hc => h hc.symm) d]

theorem dashDictGet_set_truthy {lab k v : String} (d : List (String × String))
    (hv : v ≠ "") (hd : pyTruthy (Dash.dictGet d lab) = true ∨ lab = k) :
    pyTruthy (Dash.dictGet (Dash.dictSet d k v) lab) = true := by
  by_cases hlk : lab = k
  · rw [hlk, dictGet_dictSet_self]
    simpa [pyTruthy] using hv
  · rw [dashDictGet_set_ne v hlk d]
    rcases hd with hd | hd
    · exact hd
    · exact absurd hd hlk

theorem mem_dictSet {d : List (String × String)} {k v : String} {kv : String × String}
    (h : kv ∈ Dash.dictSet d k v) : kv = (k, v) ∨ kv ∈ d := by
  unfold Dash.dictSet at h
  by_cases hk : (d.map (fun p => p.1)).contains k
  · rw [if_pos hk] at h
    obtain ⟨p, hp, hpe⟩ := List.mem_map.1 h
    by_cases hpk : p.1 = k
    · rw [if_pos hpk] at hpe
      exact Or.inl hpe.symm
    · rw [if_neg hpk] at hpe
      exact Or.inr (hpe ▸ hp)
  · rw [if_neg hk] at h
    rcases List.mem_append.1 h with h2 | h2
    · exact Or.inr h2
    · exact Or.inl (by simpa using h2)

theorem dictGet_mem {d : List (String × String)} {k v : String}
    (h : Dash.dictGet d k = some v) : (k, v) ∈ d := by
  unfold Dash.dictGet at h
  cases hf : d.find? (fun p => p.1 == k) with
  | none => rw [hf] at h; exact absurd h (by simp)
  | some kv =>
    rw [hf] at h
    simp only [Option.map] at h
    have hmem := List.mem_of_find?_eq_some hf
    have hp := List.find?_some hf
    have hk : kv.1 = k := by simpa using hp
    have hv : kv.2 = v := by simpa using h
    have hkv : kv = (k, v) := by
      cases kv
      simp_all
    exact hkv ▸ hmem

theorem dashUpdate_keys (k v : String) (d : List (String × String)) :
    (List.map (fun p => if p.1 = k then (k, v) else p) d).map (fun p => p.1) =
      d.map (fun p => p.1) := by
  rw [List.map_map]
  apply List.map_congr_left
  intro p _
  by_cases hpk : p.1 = k <;> simp [hpk]

theorem dictSet_length_fresh {d : List (String × String)} {k : String} (v : String)
    (h : (d.map (fun p => p.1)).contains k = false) :
    (Dash.dictSet d k v).length = d.length + 1 := by
  unfold Dash.dictSet
  rw [if_neg (fun hc => by rw [h] at hc; exact Bool.noConfusion hc),
    List.length_append]
  rfl

theorem dashRank_cases (c : Dash.Call) :
    Dash.Call.rank c = (0, c.idx) ∨ Dash.Call.rank c = (1, c.idx) := by
  cases c
  · exact Or.inl rfl
  · exact Or.inr rfl

theorem dashRunEpics_calls_mem (oracle : Nat → Resp) :
    ∀ (epics : List Dash.EpicSpec) (n i : Nat) (d : List (String × String)),
      ∀ c ∈ (Dash.runEpics oracle n i epics d).2.1,
        ∃ i2 p, c = Dash.Call.epicCall i2 p ∧ i ≤ i2
  | [], n, i, d => by simp [Dash.runEpics]
  | e :: rest, n, i, d => by
    intro c hc
    simp only [Dash.runEpics, List.mem_cons] at hc
    rcases hc with rfl | hc
    · exact ⟨i, _, rfl, le_refl i⟩
    · obtain ⟨i2, p, hcp, hi⟩ := dashRunEpics_calls_mem oracle rest (n + 1) (i + 1) _ c hc
      exact ⟨i2, p, hcp, by omega⟩

theorem dashRunEpics_pairwise (oracle : Nat → Resp) :
    ∀ (epics : List Dash.EpicSpec) (n i : Nat) (d : List (String × String)),
      (Dash.runEpics oracle n i epics d).2.1.Pairwise Dash.callBefore
  | [], n, i, d => by simp [Dash.runEpics]
  | e :: rest, n, i, d => by
    simp only [Dash.runEpics]
    refine List.Pairwise.cons ?_ (dashRunEpics_pairwise oracle rest (n + 1) (i + 1) _)
    intro c hc
    obtain ⟨i2, p, rfl, hi⟩ := dashRunEpics_calls_mem oracle rest (n + 1) (i + 1) _ c hc
    exact Or.inr ⟨rfl, Nat.lt_of_lt_of_le (Nat.lt_succ_self i) hi⟩

theorem dashRunEpics_events_mem (oracle : Nat → Resp) :
    ∀ (epics : List Dash.EpicSpec) (n i : Nat) (d : List (String × String)),
      ∀ e ∈ (Dash.runEpics oracle n i epics d).2.2.1,
        ((e.isEpicCreated || e.isEpicFailed) = true) ∧ i ≤ e.idx
  | [], n, i, d => by simp [Dash.runEpics]
  | ep :: rest, n, i, d => by
    intro e he
    simp only [Dash.runEpics, List.mem_append, List.mem_cons] at he
    rcases he with (he | he) | he
    · cases hm : (Dash.create_epic (oracle n)).2 with
      | none => rw [hm] at he; simp at he
      | some err =>
        rw [hm] at he
        simp only [List.mem_singleton] at he
        subst he
        simp [Dash.Event.isEpicCreated, Dash.Event.isEpicFailed, Dash.Event.idx]
    · by_cases hk : pyTruthy (Dash.create_epic (oracle n)).1.1
      · rw [if_pos hk] at he
        simp only [List.mem_singleton] at he
        subst he
        simp [Dash.Event.isEpicCreated, Dash.Event.isEpicFailed, Dash.Event.idx]
      · rw [if_neg hk] at he
        simp at he
    · obtain ⟨h1, h2⟩ := dashRunEpics_events_mem oracle rest (n + 1) (i + 1) _ e he
      exact ⟨h1, by omega⟩

theorem dashCreate_epic_truthy {r : Resp}
    (h : pyTruthy (Dash.create_epic r).1.1 = true) :
    r.status = 201 ∧ (Dash.create_epic r).1.1 = some r.key ∧
      (Dash.create_epic r).2 = none ∧ r.key ≠ "" := by
  by_cases hs : r.status = 201
  · refine ⟨hs, by simp [Dash.create_epic, hs], by simp [Dash.create_epic, hs], ?_⟩
    rw [show (Dash.create_epic r).1.1 = some r.key by simp [Dash.create_epic, hs]] at h
    simpa [pyTruthy] using h
  · rw [show (Dash.create_epic r).1.1 = none by simp [Dash.create_epic, hs]] at h
    simp [pyTruthy] at h

theorem dashCreate_epic_fail {r : Resp} (hs : ¬r.status = 201) :
    (Dash.create_epic r).1.1 = none ∧
      (Dash.create_epic r).2 = some ⟨r.status, r.body.take 200⟩ := by
  simp [Dash.create_epic, hs]

theorem dashRunEpics_records (oracle : Nat → Resp) (hwf : WFOracle oracle) :
    ∀ (epics : List Dash.EpicSpec) (n i : Nat) (d : List (String × String)),
      (Dash.runEpics oracle n i epics d).2.2.1.countP Dash.Event.isEpicCreated +
        (Dash.runEpics oracle n i epics d).2.2.1.countP Dash.Event.isEpicFailed =
        epics.length
  | [], n, i, d => by simp [Dash.runEpics]
  | e :: rest, n, i, d => by
    by_cases hs : (oracle n).status = 201
    · have hkey : (Dash.create_epic (oracle n)).1.1 = some (oracle n).key := by
        simp [Dash.create_epic, hs]
      have herr : (Dash.create_epic (oracle n)).2 = none := by
        simp [Dash.create_epic, hs]
      have htr : pyTruthy (Dash.create_epic (oracle n)).1.1 = true := by
        rw [hkey]
        simpa [pyTruthy] using hwf n hs
      have ihh := dashRunEpics_records oracle hwf rest (n + 1) (i + 1)
        (Dash.dictSet d e.key ((Dash.create_epic (oracle n)).1.1.getD ""))
      simp only [Dash.runEpics, herr, htr]
      simp [List.countP_cons, List.countP_append, Dash.Event.isEpicCreated,
        Dash.Event.isEpicFailed, ihh]
      omega
    · obtain ⟨hkey, herr⟩ := dashCreate_epic_fail hs
      have htr : pyTruthy (Dash.create_epic (oracle n)).1.1 = false := by
        rw [hkey]; rfl
      have ihh := dashRunEpics_records oracle hwf rest (n + 1) (i + 1) d
      simp only [Dash.runEpics, herr, htr]
      simp [List.countP_cons, List.countP_append, Dash.Event.isEpicCreated,
        Dash.Event.isEpicFailed, ihh]
      omega

theorem dashBeq_decide (a b : String) : (a == b) = decide (a = b) := by
  by_cases h : a = b <;> simp [h]

theorem dashContains_append_single (l : List String) (a k : String) :
    (l ++ [a]).contains k = (l.contains k || (k == a)) := by
  induction l with
  | nil => simp [List.contains_cons, dashBeq_decide]
  | cons x rest ih => simp [List.contains_cons, ih, Bool.or_assoc, dashBeq_decide]

theorem dashDictSet_keys_fresh {d : List (String × String)} {k : String} (v : String)
    (h : ((d.map (fun p => p.1)).contains k) = false) :
    (Dash.dictSet d k v).map (fun p => p.1) = d.map (fun p => p.1) ++ [k] := by
  unfold Dash.dictSet
  rw [if_neg (fun hc => by rw [h] at hc; exact Bool.noConfusion hc), List.map_append]
  rfl

theorem dashRunEpics_dict_len (oracle : Nat → Resp) :
    ∀ (epics : List Dash.EpicSpec) (n i : Nat) (d : List (String × String)),
      (epics.map (fun e => e.key)).Nodup →
      (∀ e ∈ epics, ((d.map (fun p => p.1)).contains e.key) = false) →
      (Dash.runEpics oracle n i epics d).2.2.2.length =
        d.length + (Dash.runEpics oracle n i epics d).2.2.1.countP Dash.Event.isEpicCreated
  | [], n, i, d => by simp [Dash.runEpics]
  | e :: rest, n, i, d => by
    intro hnd hfresh
    have hnd2 : (rest.map (fun e => e.key)).Nodup := by
      simpa using hnd.of_cons
    have hkne : ∀ e2 ∈ rest, ¬(e2.key = e.key) := by
      intro e2 he2 hcon
      have : e.key ∈ rest.map (fun e => e.key) := List.mem_map.2 ⟨e2, he2, hcon⟩
      exact (List.nodup_cons.1 (by simpa using hnd)).1 this
    by_cases hk : pyTruthy (Dash.create_epic (oracle n)).1.1
    · obtain ⟨hs, hkey, herr, hkne2⟩ := dashCreate_epic_truthy hk
      have hfr := hfresh e (List.mem_cons_self e rest)
      have hfresh2 : ∀ e2 ∈ rest,
          (((Dash.dictSet d e.key ((Dash.create_epic (oracle n)).1.1.getD "")).map
            (fun p => p.1)).contains e2.key) = false := by
        intro e2 he2
        rw [dashDictSet_keys_fresh _ hfr, dashContains_append_single]
        have h1 := hfresh e2 (List.mem_cons_of_mem e he2)
        have h2 : (e2.key == e.key) = false := by
          simpa using hkne e2 he2
        rw [h1, h2]
        rfl
      have ih := dashRunEpics_dict_len oracle rest (n + 1) (i + 1)
        (Dash.dictSet d e.key ((Dash.create_epic (oracle n)).1.1.getD ""))
        hnd2 hfresh2
      have hlen := dictSet_length_fresh
        ((Dash.create_epic (oracle n)).1.1.getD "") hfr
      simp only [Dash.runEpics, herr, hk, if_pos rfl]
      simp [List.countP_cons, List.countP_append, Dash.Event.isEpicCreated, ih, hlen]
      omega
    · have ih := dashRunEpics_dict_len oracle rest (n + 1) (i + 1) d hnd2
        (fun e2 he2 => hfresh e2 (List.mem_cons_of_mem e he2))
      have hkf : pyTruthy (Dash.create_epic (oracle n)).1.1 = false := by
        simpa using hk
      simp only [Dash.runEpics, hkf]
      cases hm : (Dash.create_epic (oracle n)).2 with
      | none =>
        simp [List.countP_append, ih]
      | some err =>
        simp [List.countP_cons, List.countP_append, Dash.Event.isEpicCreated, ih]

theorem dashDropFacts {l : List Dash.EpicSpec} {i : Nat} {e : Dash.EpicSpec}
    {rest : List Dash.EpicSpec} (h : l.drop i = e :: rest) :
    i < l.length ∧ l.getD i default = e ∧ l.drop (i + 1) = rest := by
  have hlen : i < l.length := by
    by_contra hlen
    rw [List.drop_eq_nil_of_le (by omega)] at h
    exact List.noConfusion h
  refine ⟨hlen, ?_, ?_⟩
  · have h0 : (l.drop i).getD 0 default = e := by rw [h]; rfl
    rw [List.getD_eq_getElem?_getD] at h0 ⊢
    rw [← h0, List.getElem?_drop]
    simp
  · have ht : (l.drop i).tail = rest := by rw [h]; rfl
    rw [← ht, List.tail_drop]

theorem dashRunEpics_dict_mem (oracle : Nat → Resp) :
    ∀ (epics : List Dash.EpicSpec) (n i : Nat) (d : List (String × String)),
      epics = Dash.EPICS.drop i →
      ∀ kv ∈ (Dash.runEpics oracle n i epics d).2.2.2,
        kv ∈ d ∨ ∃ i2, i2 < Dash.EPICS.length ∧
          (Dash.EPICS.getD i2 default).key = kv.1 ∧
          Dash.Event.epicCreated i2 kv.2 ∈ (Dash.runEpics oracle n i epics d).2.2.1
  | [], n, i, d => by
    intro _ kv hkv
    exact Or.inl (by simpa [Dash.runEpics] using hkv)
  | e :: rest, n, i, d => by
    intro hdrop kv hkv
    obtain ⟨hlen, hget, htail⟩ := dashDropFacts hdrop.symm
    by_cases hk : pyTruthy (Dash.create_epic (oracle n)).1.1
    · obtain ⟨hs, hkey, herr, hkne⟩ := dashCreate_epic_truthy hk
      simp only [Dash.runEpics, hk, if_pos rfl, herr, List.nil_append] at hkv ⊢
      rcases dashRunEpics_dict_mem oracle rest (n + 1) (i + 1)
          (Dash.dictSet d e.key ((Dash.create_epic (oracle n)).1.1.getD ""))
          htail.symm kv hkv with hin | ⟨i2, h1, h2, h3⟩
      · rcases mem_dictSet hin with rfl | hin2
        · refine Or.inr ⟨i, hlen, by rw [hget], ?_⟩
          exact List.mem_cons_self _ _
        · exact Or.inl hin2
      · exact Or.inr ⟨i2, h1, h2, List.mem_cons_of_mem _ (List.mem_append_right _ h3)⟩
    · have hkf : pyTruthy (Dash.create_epic (oracle n)).1.1 = false := by simpa using hk
      simp only [Dash.runEpics, hkf] at hkv ⊢
      rcases dashRunEpics_dict_mem oracle rest (n + 1) (i + 1) d
          htail.symm kv hkv with hin | ⟨i2, h1, h2, h3⟩
      · exact Or.inl hin
      · exact Or.inr ⟨i2, h1, h2, List.mem_append_right _ h3⟩

theorem dashRunEpics_dict_persist (oracle : Nat → Resp) :
    ∀ (epics : List Dash.EpicSpec) (n i : Nat) (d : List (String × String)) (lab : String),
      pyTruthy (Dash.dictGet d lab) = true →
      pyTruthy (Dash.dictGet (Dash.runEpics oracle n i epics d).2.2.2 lab) = true
  | [], n, i, d, lab => by
    intro h
    simpa [Dash.runEpics] using h
  | e :: rest, n, i, d, lab => by
    intro h
    by_cases hk : pyTruthy (Dash.create_epic (oracle n)).1.1
    · obtain ⟨hs, hkey, herr, hkne⟩ := dashCreate_epic_truthy hk
      simp only [Dash.runEpics, hk, if_pos rfl]
      refine dashRunEpics_dict_persist oracle rest (n + 1) (i + 1) _ lab ?_
      refine dashDictGet_set_truthy d ?_ (Or.inl h)
      rw [hkey]
      simpa using hkne
    · have hkf : pyTruthy (Dash.create_epic (oracle n)).1.1 = false := by simpa using hk
      simp only [Dash.runEpics, hkf]
      exact dashRunEpics_dict_persist oracle rest (n + 1) (i + 1) d lab h


theorem dashRunEpics_created_get (oracle : Nat → Resp) :
    ∀ (epics : List Dash.EpicSpec) (n i : Nat) (d : List (String × String)),
      epics = Dash.EPICS.drop i →
      ∀ i2, (Dash.runEpics oracle n i epics d).2.2.1.any
          (Dash.Event.isEpicCreatedAt i2) = true →
        pyTruthy (Dash.dictGet (Dash.runEpics oracle n i epics d).2.2.2
          ((Dash.EPICS.getD i2 default).key)) = true
  | [], n, i, d => by
    intro _ i2 h
    simp [Dash.runEpics] at h
  | e :: rest, n, i, d => by
    intro hdrop i2 hany
    obtain ⟨hlen, hget, htail⟩ := dashDropFacts hdrop.symm
    by_cases hk : pyTruthy (Dash.create_epic (oracle n)).1.1
    · obtain ⟨hs, hkey, herr, hkne⟩ := dashCreate_epic_truthy hk
      simp only [Dash.runEpics, hk, if_pos rfl, if_pos trivial, herr,
        List.nil_append] at hany ⊢
      rw [List.singleton_append, List.any_cons] at hany
      by_cases hh : Dash.Event.isEpicCreatedAt i2
          (Dash.Event.epicCreated i ((Dash.create_epic (oracle n)).1.1.getD "")) = true
      · have hi2 : i2 = i := by
          have := by
            simpa [Dash.Event.isEpicCreatedAt, Dash.Event.isEpicCreated,
              Dash.Event.idx] using hh
          exact this.symm
        rw [hi2, hget]
        refine dashRunEpics_dict_persist oracle rest (n + 1) (i + 1) _ e.key ?_
        rw [dictGet_dictSet_self, hkey]
        simpa [pyTruthy, bne_iff_ne] using hkne
      · have hh2 : Dash.Event.isEpicCreatedAt i2
            (Dash.Event.epicCreated i ((Dash.create_epic (oracle n)).1.1.getD ""))
              = false := by
          simpa using hh
        rw [hh2, Bool.false_or] at hany
        exact dashRunEpics_created_get oracle rest (n + 1) (i + 1) _ htail.symm i2 hany
    · have hkf : pyTruthy (Dash.create_epic (oracle n)).1.1 = false := by simpa using hk
      simp only [Dash.runEpics, hkf] at hany ⊢
      cases hm : (Dash.create_epic (oracle n)).2 with
      | none =>
        rw [hm] at hany
        simp only [List.nil_append] at hany
        exact dashRunEpics_created_get oracle rest (n + 1) (i + 1) d htail.symm i2 hany
      | some err =>
        rw [hm] at hany
        simp only [List.cons_append, List.nil_append, List.any_cons] at hany
        have hh : Dash.Event.isEpicCreatedAt i2 (Dash.Event.epicFailed i err)
            = false := by
          simp [Dash.Event.isEpicCreatedAt, Dash.Event.isEpicCreated]
        rw [hh, Bool.false_or] at hany
        exact dashRunEpics_created_get oracle rest (n + 1) (i + 1) d htail.symm i2 hany

theorem dashCreate_story_truthy {r : Resp}
    (h : pyTruthy (Dash.create_story r).1 = true) :
    r.status = 201 ∧ (Dash.create_story r).1 = some r.key ∧
      (Dash.create_story r).2 = none ∧ r.key ≠ "" := by
  by_cases hs : r.status = 201
  · refine ⟨hs, by simp [Dash.create_story, hs], by simp [Dash.create_story, hs], ?_⟩
    rw [show (Dash.create_story r).1 = some r.key by simp [Dash.create_story, hs]] at h
    simpa [pyTruthy] using h
  · rw [show (Dash.create_story r).1 = none by simp [Dash.create_story, hs]] at h
    simp [pyTruthy] at h

theorem dashRunStories_events_mem (oracle : Nat → Resp) :
    ∀ (stories : List Dash.StorySpec) (n s : Nat) (d : List (String × String)),
      ∀ e ∈ (Dash.runStories oracle n s stories d).events,
        ((e.isStoryCreated || e.isStoryFailed || e.isStorySkipped) = true) ∧ s ≤ e.idx
  | [], n, s, d => by simp [Dash.runStories]
  | story :: rest, n, s, d => by
    intro e he
    by_cases hp : pyTruthy (Dash.dictGet d story.epic)
    · simp only [Dash.runStories, hp, if_pos rfl, if_pos trivial, List.mem_append,
        List.mem_cons] at he
      rcases he with (he | he) | he
      · cases hm : (Dash.create_story (oracle n)).2 with
        | none => rw [hm] at he; simp at he
        | some err =>
          rw [hm] at he
          simp only [List.mem_singleton] at he
          subst he
          simp [Dash.Event.isStoryCreated, Dash.Event.isStoryFailed,
            Dash.Event.isStorySkipped, Dash.Event.idx]
      · by_cases hk : pyTruthy (Dash.create_story (oracle n)).1
        · rw [if_pos hk] at he
          simp only [List.mem_singleton] at he
          subst he
          simp [Dash.Event.isStoryCreated, Dash.Event.isStoryFailed,
            Dash.Event.isStorySkipped, Dash.Event.idx]
        · rw [if_neg hk] at he
          simp at he
      · obtain ⟨h1, h2⟩ := dashRunStories_events_mem oracle rest (n + 1) (s + 1) d e he
        exact ⟨h1, by omega⟩
    · have hpf : pyTruthy (Dash.dictGet d story.epic) = false := by simpa using hp
      simp only [Dash.runStories, hpf, Bool.false_eq_true, if_false,
        List.mem_cons] at he
      rcases he with rfl | he
      · simp [Dash.Event.isStoryCreated, Dash.Event.isStoryFailed,
          Dash.Event.isStorySkipped, Dash.Event.idx]
      · obtain ⟨h1, h2⟩ := dashRunStories_events_mem oracle rest n (s + 1) d e he
        exact ⟨h1, by omega⟩

theorem dashRunStories_calls_mem (oracle : Nat → Resp) :
    ∀ (stories : List Dash.StorySpec) (n s : Nat) (d : List (String × String)),
      ∀ c ∈ (Dash.runStories oracle n s stories d).calls,
        ∃ s2 pk p, c = Dash.Call.storyCall s2 pk p ∧ s ≤ s2
  | [], n, s, d => by simp [Dash.runStories]
  | story :: rest, n, s, d => by
    intro c hc
    by_cases hp : pyTruthy (Dash.dictGet d story.epic)
    · simp only [Dash.runStories, hp, if_pos rfl, if_pos trivial,
        List.mem_cons] at hc
      rcases hc with rfl | hc
      · exact ⟨s, _, _, rfl, le_refl s⟩
      · obtain ⟨s2, pk, p, hcp, hs2⟩ :=
          dashRunStories_calls_mem oracle rest (n + 1) (s + 1) d c hc
        exact ⟨s2, pk, p, hcp, by omega⟩
    · have hpf : pyTruthy (Dash.dictGet d story.epic) = false := by simpa using hp
      simp only [Dash.runStories, hpf, Bool.false_eq_true, if_false] at hc
      obtain ⟨s2, pk, p, hcp, hs2⟩ :=
        dashRunStories_calls_mem oracle rest n (s + 1) d c hc
      exact ⟨s2, pk, p, hcp, by omega⟩

theorem dashRunStories_pairwise (oracle : Nat → Resp) :
    ∀ (stories : List Dash.StorySpec) (n s : Nat) (d : List (String × String)),
      (Dash.runStories oracle n s stories d).calls.Pairwise Dash.callBefore
  | [], n, s, d => by simp [Dash.runStories]
  | story :: rest, n, s, d => by
    by_cases hp : pyTruthy (Dash.dictGet d story.epic)
    · simp only [Dash.runStories, hp, if_pos rfl, if_pos trivial]
      refine List.Pairwise.cons ?_ (dashRunStories_pairwise oracle rest (n + 1) (s + 1) d)
      intro c hc
      obtain ⟨s2, pk, p, rfl, hs2⟩ :=
        dashRunStories_calls_mem oracle rest (n + 1) (s + 1) d c hc
      exact Or.inr ⟨rfl, Nat.lt_of_lt_of_le (Nat.lt_succ_self s) hs2⟩
    · have hpf : pyTruthy (Dash.dictGet d story.epic) = false := by simpa using hp
      simp only [Dash.runStories, hpf, Bool.false_eq_true, if_false]
      exact dashRunStories_pairwise oracle rest n (s + 1) d

theorem dashRunStories_partition (oracle : Nat → Resp) (hwf : WFOracle oracle) :
    ∀ (stories : List Dash.StorySpec) (n s : Nat) (d : List (String × String)),
      (Dash.runStories oracle n s stories d).events.countP Dash.Event.isStoryCreated +
        (Dash.runStories oracle n s stories d).events.countP Dash.Event.isStoryFailed +
        (Dash.runStories oracle n s stories d).events.countP Dash.Event.isStorySkipped =
        stories.length
  | [], n, s, d => by simp [Dash.runStories]
  | story :: rest, n, s, d => by
    by_cases hp : pyTruthy (Dash.dictGet d story.epic)
    · have ih := dashRunStories_partition oracle hwf rest (n + 1) (s + 1) d
      by_cases hs : (oracle n).status = 201
      · have hkey : (Dash.create_story (oracle n)).1 = some (oracle n).key := by
          simp [Dash.create_story, hs]
        have herr : (Dash.create_story (oracle n)).2 = none := by
          simp [Dash.create_story, hs]
        have htr : pyTruthy (Dash.create_story (oracle n)).1 = true := by
          rw [hkey]
          simpa [pyTruthy] using hwf n hs
        simp only [Dash.runStories, hp, if_pos rfl, if_pos trivial, herr, htr]
        simp [List.countP_cons, List.countP_append, Dash.Event.isStoryCreated,
          Dash.Event.isStoryFailed, Dash.Event.isStorySkipped, ih]
        omega
      · have hkey : (Dash.create_story (oracle n)).1 = none := by
          simp [Dash.create_story, hs]
        have herr : (Dash.create_story (oracle n)).2 =
            some ⟨(oracle n).status, (oracle n).body.take 200⟩ := by
          simp [Dash.create_story, hs]
        have htr : pyTruthy (Dash.create_story (oracle n)).1 = false := by
          rw [hkey]; rfl
        simp only [Dash.runStories, hp, if_pos rfl, if_pos trivial, herr, htr]
        simp [List.countP_cons, List.countP_append, Dash.Event.isStoryCreated,
          Dash.Event.isStoryFailed, Dash.Event.isStorySkipped, ih]
        omega
    · have hpf : pyTruthy (Dash.dictGet d story.epic) = false := by simpa using hp
      have ih := dashRunStories_partition oracle hwf rest n (s + 1) d
      simp only [Dash.runStories, hpf, Bool.false_eq_true, if_false]
      simp [List.countP_cons, Dash.Event.isStoryCreated,
        Dash.Event.isStoryFailed, Dash.Event.isStorySkipped, ih]
      omega

theorem dashRunStories_callAt (oracle : Nat → Resp) :
    ∀ (stories : List Dash.StorySpec) (n s : Nat) (d : List (String × String)) (k : Nat),
      k < stories.length →
      (Dash.runStories oracle n s stories d).calls.countP (Dash.Call.isStoryAt (s + k)) =
        if pyTruthy (Dash.dictGet d ((stories.getD k default).epic)) then 1 else 0
  | [], n, s, d, k => by intro hk; simp at hk
  | story :: rest, n, s, d, k => by
    intro hk
    have hrest0 : ∀ m, m < s + 1 →
        (Dash.runStories oracle (n + 1) (s + 1) rest d).calls.countP
          (Dash.Call.isStoryAt m) = 0 ∧
        (Dash.runStories oracle n (s + 1) rest d).calls.countP
          (Dash.Call.isStoryAt m) = 0 := by
      intro m hm
      constructor <;>
      · refine List.countP_eq_zero.2 (fun c hc => ?_)
        obtain ⟨s2, pk, p, rfl, hs2⟩ := dashRunStories_calls_mem oracle rest _ (s + 1) d c hc
        simp [Dash.Call.isStoryAt, Dash.Call.isStory, Dash.Call.idx]
        omega
    by_cases hp : pyTruthy (Dash.dictGet d story.epic)
    · cases k with
      | zero =>
        simp only [Dash.runStories, hp, if_pos rfl, if_pos trivial, Nat.add_zero,
          List.countP_cons, List.getD_cons_zero, (hrest0 s (by omega)).1]
        simp [Dash.Call.isStoryAt, Dash.Call.isStory, Dash.Call.idx, hp]
      | succ k =>
        have ih := dashRunStories_callAt oracle rest (n + 1) (s + 1) d k (by simpa using hk)
        have hik : s + (k + 1) = (s + 1) + k := by omega
        simp only [Dash.runStories, hp, if_pos rfl, if_pos trivial,
          List.countP_cons, List.getD_cons_succ]
        rw [hik, ih]
        have hhead : Dash.Call.isStoryAt (s + 1 + k)
            (Dash.Call.storyCall s ((Dash.dictGet d story.epic).getD "")
              (Dash.create_story_payload story ((Dash.dictGet d story.epic).getD "")))
              = false := by
          simp [Dash.Call.isStoryAt, Dash.Call.isStory, Dash.Call.idx]
          omega
        rw [hhead]
        simp
    · have hpf : pyTruthy (Dash.dictGet d story.epic) = false := by simpa using hp
      cases k with
      | zero =>
        simp only [Dash.runStories, hpf, Bool.false_eq_true, if_false, Nat.add_zero,
          List.getD_cons_zero, (hrest0 s (by omega)).2]
      | succ k =>
        have ih := dashRunStories_callAt oracle rest n (s + 1) d k (by simpa using hk)
        have hik : s + (k + 1) = (s + 1) + k := by omega
        simp only [Dash.runStories, hpf, Bool.false_eq_true, if_false,
          List.getD_cons_succ]
        rw [hik, ih]

theorem dashRunStories_skipAt (oracle : Nat → Resp) :
    ∀ (stories : List Dash.StorySpec) (n s : Nat) (d : List (String × String)) (k : Nat),
      k < stories.length →
      pyTruthy (Dash.dictGet d ((stories.getD k default).epic)) = false →
      Dash.Event.storySkipped (s + k) ∈ (Dash.runStories oracle n s stories d).events ∧
      (Dash.runStories oracle n s stories d).events.countP
        (Dash.Event.isStoryFailedAt (s + k)) = 0 ∧
      (Dash.runStories oracle n s stories d).events.countP
        (Dash.Event.isStoryCreatedAt (s + k)) = 0
  | [], n, s, d, k => by intro hk; simp at hk
  | story :: rest, n, s, d, k => by
    intro hk hfal
    have hrestF : ∀ m, m < s + 1 → ∀ n2,
        (Dash.runStories oracle n2 (s + 1) rest d).events.countP
          (Dash.Event.isStoryFailedAt m) = 0 ∧
        (Dash.runStories oracle n2 (s + 1) rest d).events.countP
          (Dash.Event.isStoryCreatedAt m) = 0 := by
      intro m hm n2
      constructor <;>
      · refine List.countP_eq_zero.2 (fun e he => ?_)
        obtain ⟨_, h2⟩ := dashRunStories_events_mem oracle rest n2 (s + 1) d e he
        simp [Dash.Event.isStoryFailedAt, Dash.Event.isStoryCreatedAt]
        omega
    by_cases hp : pyTruthy (Dash.dictGet d story.epic)
    · cases k with
      | zero =>
        rw [List.getD_cons_zero] at hfal
        rw [hfal] at hp
        exact absurd hp (by simp)
      | succ k =>
        rw [List.getD_cons_succ] at hfal
        have hik : s + (k + 1) = (s + 1) + k := by omega
        obtain ⟨ih1, ih2, ih3⟩ :=
          dashRunStories_skipAt oracle rest (n + 1) (s + 1) d k (by simpa using hk) hfal
        have hheads : ∀ (q : Dash.Event → Bool),
            (∀ err, q (Dash.Event.storyFailed s err) = false) →
            (∀ key pts, q (Dash.Event.storyCreated s key pts) = false) →
            ((match (Dash.create_story (oracle n)).2 with
              | some err => [Dash.Event.storyFailed s err]
              | none => []).countP q = 0 ∧
            (if pyTruthy (Dash.create_story (oracle n)).1 = true then
                [Dash.Event.storyCreated s
                  (((Dash.create_story (oracle n)).1).getD "") story.points]
              else []).countP q = 0) := by
          intro q hq1 hq2
          constructor
          · refine List.countP_eq_zero.2 (fun e2 he2 => ?_)
            cases hm : (Dash.create_story (oracle n)).2 with
            | none => rw [hm] at he2; simp at he2
            | some err =>
              rw [hm] at he2
              simp only [List.mem_singleton] at he2
              subst he2
              simp [hq1]
          · refine List.countP_eq_zero.2 (fun e2 he2 => ?_)
            by_cases hku : pyTruthy (Dash.create_story (oracle n)).1 = true
            · rw [if_pos hku] at he2
              simp only [List.mem_singleton] at he2
              subst he2
              simp [hq2]
            · rw [if_neg hku] at he2
              simp at he2
        simp only [Dash.runStories, hp, if_pos rfl, if_pos trivial,
          List.countP_append]
        rw [hik]
        obtain ⟨hf1, hf2⟩ := hheads (Dash.Event.isStoryFailedAt (s + 1 + k))
          (fun err => by
            simp [Dash.Event.isStoryFailedAt, Dash.Event.isStoryFailed,
              Dash.Event.idx]
            omega)
          (fun key pts => by
            simp [Dash.Event.isStoryFailedAt, Dash.Event.isStoryFailed])
        obtain ⟨hc1, hc2⟩ := hheads (Dash.Event.isStoryCreatedAt (s + 1 + k))
          (fun err => by
            simp [Dash.Event.isStoryCreatedAt, Dash.Event.isStoryCreated])
          (fun key pts => by
            simp [Dash.Event.isStoryCreatedAt, Dash.Event.isStoryCreated,
              Dash.Event.idx]
            omega)
        refine ⟨List.mem_append_right _ ih1, ?_, ?_⟩
        · rw [hf1, hf2, ih2]
        · rw [hc1, hc2, ih3]
    · have hpf : pyTruthy (Dash.dictGet d story.epic) = false := by simpa using hp
      cases k with
      | zero =>
        simp only [Dash.runStories, hpf, Bool.false_eq_true, if_false, Nat.add_zero,
          List.countP_cons, List.mem_cons]
        refine ⟨by simp, ?_, ?_⟩
        · rw [(hrestF s (by omega) n).1]
          simp [Dash.Event.isStoryFailedAt, Dash.Event.isStoryFailed]
        · rw [(hrestF s (by omega) n).2]
          simp [Dash.Event.isStoryCreatedAt, Dash.Event.isStoryCreated]
      | succ k =>
        rw [List.getD_cons_succ] at hfal
        have hik : s + (k + 1) = (s + 1) + k := by omega
        obtain ⟨ih1, ih2, ih3⟩ :=
          dashRunStories_skipAt oracle rest n (s + 1) d k (by simpa using hk) hfal
        simp only [Dash.runStories, hpf, Bool.false_eq_true, if_false,
          List.countP_cons, List.mem_cons]
        rw [hik]
        refine ⟨Or.inr ih1, ?_, ?_⟩
        · rw [ih2]
          have hsk : Dash.Event.isStoryFailedAt (s + 1 + k) (Dash.Event.storySkipped s)
              = false := by
            simp [Dash.Event.isStoryFailedAt, Dash.Event.isStoryFailed]
          rw [hsk]
          simp
        · rw [ih3]
          have hsk : Dash.Event.isStoryCreatedAt (s + 1 + k) (Dash.Event.storySkipped s)
              = false := by
            simp [Dash.Event.isStoryCreatedAt, Dash.Event.isStoryCreated]
          rw [hsk]
          simp

theorem dashRunStories_counters (oracle : Nat → Resp) :
    ∀ (stories : List Dash.StorySpec) (n s : Nat) (d : List (String × String)),
      ((Dash.runStories oracle n s stories d).created_stories =
        (Dash.runStories oracle n s stories d).events.countP Dash.Event.isStoryCreated) ∧
      ((Dash.runStories oracle n s stories d).total_points =
        ((Dash.runStories oracle n s stories d).events.map Dash.eventPoints).sum)
  | [], n, s, d => by simp [Dash.runStories]
  | story :: rest, n, s, d => by
    by_cases hp : pyTruthy (Dash.dictGet d story.epic)
    · obtain ⟨ih1, ih2⟩ := dashRunStories_counters oracle rest (n + 1) (s + 1) d
      by_cases hk : pyTruthy (Dash.create_story (oracle n)).1
      · have htr : pyTruthy (Dash.create_story (oracle n)).1 = true := hk
        obtain ⟨hs, hkey, herr, hkne⟩ := dashCreate_story_truthy hk
        simp only [Dash.runStories, hp, if_pos rfl, if_pos trivial, herr, htr,
          List.nil_append, List.singleton_append, List.countP_cons, List.map_cons,
          List.sum_cons]
        simp [Dash.Event.isStoryCreated, Dash.eventPoints, ih1, ih2]
        omega
      · have hkf : pyTruthy (Dash.create_story (oracle n)).1 = false := by simpa using hk
        simp only [Dash.runStories, hp, if_pos rfl, if_pos trivial, hkf,
          Bool.false_eq_true, if_false, List.append_nil]
        cases hm : (Dash.create_story (oracle n)).2 with
        | none =>
          simp [List.nil_append, ih1, ih2]
        | some err =>
          simp only [List.singleton_append, List.countP_cons, List.map_cons,
            List.sum_cons]
          simp [Dash.Event.isStoryCreated, Dash.eventPoints, ih1, ih2]
    · have hpf : pyTruthy (Dash.dictGet d story.epic) = false := by simpa using hp
      obtain ⟨ih1, ih2⟩ := dashRunStories_counters oracle rest n (s + 1) d
      simp only [Dash.runStories, hpf, Bool.false_eq_true, if_false,
        List.countP_cons, List.map_cons, List.sum_cons]
      simp [Dash.Event.isStoryCreated, Dash.eventPoints, ih1, ih2]

theorem dashRunStories_parent_from_dict (oracle : Nat → Resp) :
    ∀ (stories : List Dash.StorySpec) (n s : Nat) (d : List (String × String)),
      ∀ c ∈ (Dash.runStories oracle n s stories d).calls,
        ∀ s2 pk p, c = Dash.Call.storyCall s2 pk p → ∃ kv ∈ d, kv.2 = pk
  | [], n, s, d => by simp [Dash.runStories]
  | story :: rest, n, s, d => by
    intro c hc s2 pk p hcp
    by_cases hp : pyTruthy (Dash.dictGet d story.epic)
    · simp only [Dash.runStories, hp, if_pos rfl, if_pos trivial,
        List.mem_cons] at hc
      rcases hc with rfl | hc
      · injection hcp with h1 h2 h3
        cases hg : Dash.dictGet d story.epic with
        | none => rw [hg] at hp; simp [pyTruthy] at hp
        | some v =>
          refine ⟨(story.epic, v), dictGet_mem hg, ?_⟩
          rw [← h2, hg]
          rfl
      · exact dashRunStories_parent_from_dict oracle rest (n + 1) (s + 1) d c hc s2 pk p hcp
    · have hpf : pyTruthy (Dash.dictGet d story.epic) = false := by simpa using hp
      simp only [Dash.runStories, hpf, Bool.false_eq_true, if_false] at hc
      exact dashRunStories_parent_from_dict oracle rest n (s + 1) d c hc s2 pk p hcp

theorem dashRunEpicsE_resp (f : Nat → Resp) :
    ∀ (epics : List Dash.EpicSpec) (n i : Nat) (d : List (String × String)),
      Dash.runEpicsE (fun m => CallResult.resp (f m)) n i epics d =
        .ok (Dash.runEpics f n i epics d)
  | [], n, i, d => rfl
  | e :: rest, n, i, d => by
    simp only [Dash.runEpicsE, Dash.runEpics,
      dashRunEpicsE_resp f rest (n + 1) (i + 1)
        (if pyTruthy (Dash.create_epic (f n)).1.1 = true then
          Dash.dictSet d e.key ((Dash.create_epic (f n)).1.1.getD "") else d)]

theorem dashRunStoriesE_resp (f : Nat → Resp) :
    ∀ (stories : List Dash.StorySpec) (n s : Nat) (d : List (String × String)),
      Dash.runStoriesE (fun m => CallResult.resp (f m)) n s stories d =
        .ok (Dash.runStories f n s stories d)
  | [], n, s, d => rfl
  | story :: rest, n, s, d => by
    by_cases hp : pyTruthy (Dash.dictGet d story.epic)
    · simp only [Dash.runStoriesE, Dash.runStories, hp, if_pos rfl, if_pos trivial,
        dashRunStoriesE_resp f rest (n + 1) (s + 1) d]
    · have hpf : pyTruthy (Dash.dictGet d story.epic) = false := by simpa using hp
      simp only [Dash.runStoriesE, Dash.runStories, hpf, Bool.false_eq_true, if_false,
        dashRunStoriesE_resp f rest n (s + 1) d]

theorem dashMainE_resp (f : Nat → Resp) :
    Dash.mainE (fun m => CallResult.resp (f m)) = .ok (Dash.main f) := by
  simp only [Dash.mainE, Dash.main, dashRunEpicsE_resp f Dash.EPICS 0 0 [],
    dashRunStoriesE_resp f Dash.STORIES (Dash.runEpics f 0 0 Dash.EPICS []).1 0
      (Dash.runEpics f 0 0 Dash.EPICS []).2.2.2]

theorem dashEvent_epic_kind {e : Dash.Event}
    (h : (e.isEpicCreated || e.isEpicFailed) = true) :
    e.isStoryCreated = false ∧ e.isStoryFailed = false ∧ e.isStorySkipped = false ∧
      Dash.eventPoints e = 0 := by
  cases e <;> simp_all [Dash.Event.isEpicCreated, Dash.Event.isEpicFailed,
    Dash.Event.isStoryCreated, Dash.Event.isStoryFailed, Dash.Event.isStorySkipped,
    Dash.eventPoints]

theorem dashEvent_story_kind {e : Dash.Event}
    (h : (e.isStoryCreated || e.isStoryFailed || e.isStorySkipped) = true) :
    e.isEpicCreated = false ∧ e.isEpicFailed = false := by
  cases e <;> simp_all [Dash.Event.isEpicCreated, Dash.Event.isEpicFailed,
    Dash.Event.isStoryCreated, Dash.Event.isStoryFailed, Dash.Event.isStorySkipped]

theorem listGetD_mem {α : Type} [Inhabited α] {l : List α} {n : Nat}
    (h : n < l.length) : l.getD n default ∈ l := by
  rw [List.getD_eq_getElem?_getD, List.getElem?_eq_getElem h]
  simp only [Option.getD_some]
  exact List.getElem_mem h

/-- C2 amended: the CP script issues its POSTs in strictly increasing rank
order — each parent's call first, then that parent's children in order,
all before any call for a later parent — while the dashboard script issues
every parent call first (in catalog order) and only then the child calls
(in catalog order). -/
theorem C2_amended (oracle : Nat → Resp) :
    (Cp.main oracle).calls.Pairwise Cp.callBefore ∧
    (Dash.main oracle).calls.Pairwise Dash.callBefore := by
  constructor
  · exact cpRunEpics_pairwise oracle Cp.EPICS_AND_STORIES 0 0
  · simp only [Dash.main]
    refine List.pairwise_append.2
      ⟨dashRunEpics_pairwise oracle Dash.EPICS 0 0 [],
       dashRunStories_pairwise oracle Dash.STORIES _ 0 _, ?_⟩
    intro a ha b hb
    obtain ⟨i2, p, rfl, _⟩ := dashRunEpics_calls_mem oracle Dash.EPICS 0 0 [] a ha
    obtain ⟨s2, pk, p2, rfl, _⟩ :=
      dashRunStories_calls_mem oracle Dash.STORIES _ 0 _ b hb
    exact Or.inl Nat.zero_lt_one

/-- C3 amended: in both scripts a child-creation POST is issued iff the
child's parent creation succeeded, and a failed parent's subtree gets zero
POSTs.  The dashboard script records each child of a failed parent as
skipped and never as failed; the CP script records such children not at
all — in particular never as failed. -/
theorem C3_amended (oracle : Nat → Resp) :
    (∀ i,
      (Cp.main oracle).calls.countP (Cp.Call.isStoryAt i) =
        (if Cp.hasEpicCreatedAt (Cp.main oracle) i
         then (Cp.EPICS_AND_STORIES.getD i default).stories.length else 0) ∧
      (Cp.main oracle).events.countP (Cp.Event.isStoryRecordAt i) =
        (if Cp.hasEpicCreatedAt (Cp.main oracle) i
         then (Cp.EPICS_AND_STORIES.getD i default).stories.length else 0)) ∧
    (∀ s, s < Dash.STORIES.length →
      ((Dash.main oracle).calls.countP (Dash.Call.isStoryAt s) =
        (if pyTruthy (Dash.dictGet (Dash.main oracle).epic_keys
            ((Dash.STORIES.getD s default).epic)) then 1 else 0)) ∧
      (pyTruthy (Dash.dictGet (Dash.main oracle).epic_keys
          ((Dash.STORIES.getD s default).epic)) = true ↔
        ∃ i2, i2 < Dash.EPICS.length ∧
          (Dash.EPICS.getD i2 default).key = (Dash.STORIES.getD s default).epic ∧
          (Dash.main oracle).events.any (Dash.Event.isEpicCreatedAt i2) = true) ∧
      (pyTruthy (Dash.dictGet (Dash.main oracle).epic_keys
          ((Dash.STORIES.getD s default).epic)) = false →
        Dash.Event.storySkipped s ∈ (Dash.main oracle).events ∧
        (Dash.main oracle).events.countP (Dash.Event.isStoryFailedAt s) = 0)) := by
  constructor
  · intro i
    have h := cpRunEpics_storyAt oracle Cp.EPICS_AND_STORIES 0 0 i
    rw [Nat.zero_add] at h
    exact ⟨h.1, h.2⟩
  · intro s hs
    have hzc : (Dash.runEpics oracle 0 0 Dash.EPICS []).2.1.countP
        (Dash.Call.isStoryAt s) = 0 := by
      refine List.countP_eq_zero.2 (fun c hc => ?_)
      obtain ⟨i2, p, rfl, _⟩ := dashRunEpics_calls_mem oracle Dash.EPICS 0 0 [] c hc
      simp [Dash.Call.isStoryAt, Dash.Call.isStory]
    have hca := dashRunStories_callAt oracle Dash.STORIES
      (Dash.runEpics oracle 0 0 Dash.EPICS []).1 0
      (Dash.runEpics oracle 0 0 Dash.EPICS []).2.2.2 s hs
    rw [Nat.zero_add] at hca
    have hzfe : (Dash.runEpics oracle 0 0 Dash.EPICS []).2.2.1.countP
        (Dash.Event.isStoryFailedAt s) = 0 := by
      refine List.countP_eq_zero.2 (fun e he => ?_)
      have hm := dashRunEpics_events_mem oracle Dash.EPICS 0 0 [] e he
      have hk := dashEvent_epic_kind hm.1
      simp [Dash.Event.isStoryFailedAt, hk.2.1]
    refine ⟨?_, ?_, ?_⟩
    · simp only [Dash.main, List.countP_append]
      rw [hzc, hca, Nat.zero_add]
    · constructor
      · intro htr
        cases hg : Dash.dictGet (Dash.main oracle).epic_keys
            ((Dash.STORIES.getD s default).epic) with
        | none => rw [hg] at htr; simp [pyTruthy] at htr
        | some v =>
          have hkv := dictGet_mem (by
            simpa only [Dash.main] using hg)
          rcases dashRunEpics_dict_mem oracle Dash.EPICS 0 0 []
              (List.drop_zero _).symm _ hkv with hin | ⟨i2, h1, h2, h3⟩
          · exact absurd hin (List.not_mem_nil _)
          · refine ⟨i2, h1, h2, ?_⟩
            simp only [Dash.main, List.any_append]
            have hai : (Dash.runEpics oracle 0 0 Dash.EPICS []).2.2.1.any
                (Dash.Event.isEpicCreatedAt i2) = true :=
              List.any_eq_true.2 ⟨_, h3, by
                simp [Dash.Event.isEpicCreatedAt, Dash.Event.isEpicCreated,
                  Dash.Event.idx]⟩
            rw [hai]
            rfl
      · rintro ⟨i2, hb, hkeyeq, hany⟩
        simp only [Dash.main, List.any_append] at hany
        have hsf : (Dash.runStories oracle (Dash.runEpics oracle 0 0 Dash.EPICS []).1
            0 Dash.STORIES (Dash.runEpics oracle 0 0 Dash.EPICS []).2.2.2).events.any
              (Dash.Event.isEpicCreatedAt i2) = false := by
          rw [List.any_eq_false]
          intro e he
          have hm := dashRunStories_events_mem oracle Dash.STORIES _ 0 _ e he
          have hk := dashEvent_story_kind hm.1
          simp [Dash.Event.isEpicCreatedAt, hk.1]
        rw [hsf] at hany
        simp only [Bool.or_false] at hany
        have := dashRunEpics_created_get oracle Dash.EPICS 0 0 []
          (List.drop_zero _).symm i2 hany
        rw [hkeyeq] at this
        simpa only [Dash.main] using this
    · intro hfal
      have hsk := dashRunStories_skipAt oracle Dash.STORIES
        (Dash.runEpics oracle 0 0 Dash.EPICS []).1 0
        (Dash.runEpics oracle 0 0 Dash.EPICS []).2.2.2 s hs
        (by rw [← hfal]; simp only [Dash.main])
      rw [Nat.zero_add] at hsk
      refine ⟨?_, ?_⟩
      · simp only [Dash.main, List.mem_append]
        exact Or.inr hsk.1
      · simp only [Dash.main, List.countP_append]
        rw [hzfe, hsk.2.1, Nat.zero_add]

/-- C3 amended witness: with the client whose first call fails, the CP run
issues no POST for any child of the failed first epic, and the dashboard run
records its first story — whose epic failed — as skipped. -/
theorem C3_amended_witness :
    (Cp.main failFirst).calls.countP (Cp.Call.isStoryAt 0) = 0 ∧
    Dash.Event.storySkipped 0 ∈ (Dash.main failFirst).events := by
  constructor
  · have h := ((C3_amended failFirst).1 0).1
    rw [h]
    decide
  · exact (((C3_amended failFirst).2 0 (by decide)).2.2 (by decide)).1

/-- C4: in every run the children's created, failed and skipped outcomes
partition the catalog's children and the parents' created and failed
outcomes partition the parents — unconditionally in the CP script, and for
every well-formed client (201 responses carry a nonempty key) in the
dashboard script. -/
theorem C4_report_counts (oracle : Nat → Resp) (hwf : WFOracle oracle) :
    ((Cp.report oracle).stories_created + Cp.storiesFailedCount (Cp.main oracle)
        = Cp.storiesAttempted (Cp.main oracle)) ∧
    (Cp.storiesAttempted (Cp.main oracle) ≤ Cp.totalStories) ∧
    ((Cp.report oracle).stories_created + Cp.storiesFailedCount (Cp.main oracle) +
        Cp.storiesSkipped (Cp.main oracle) = (Cp.report oracle).total_stories) ∧
    ((Cp.report oracle).epics_created + Cp.epicsFailedCount (Cp.main oracle)
        = (Cp.report oracle).total_epics) ∧
    ((Dash.report oracle).stories_created +
        Dash.storiesFailedCount (Dash.main oracle) +
        Dash.storiesSkippedCount (Dash.main oracle)
          = (Dash.report oracle).total_stories) ∧
    ((Dash.report oracle).epics_created + Dash.epicsFailedCount (Dash.main oracle)
        = (Dash.report oracle).total_epics) := by
  obtain ⟨hcp1, hcp2, hcp3⟩ := cpRunEpics_records oracle Cp.EPICS_AND_STORIES 0 0
  obtain ⟨hct1, hct2⟩ := cpRunEpics_story_totals oracle Cp.EPICS_AND_STORIES 0 0
  have hemem := dashRunEpics_events_mem oracle Dash.EPICS 0 0 []
  have hsmem := dashRunStories_events_mem oracle Dash.STORIES
    (Dash.runEpics oracle 0 0 Dash.EPICS []).1 0
    (Dash.runEpics oracle 0 0 Dash.EPICS []).2.2.2
  have hzs : ∀ q : Dash.Event → Bool, (∀ e, (e.isEpicCreated || e.isEpicFailed)
        = true → q e = false) →
      (Dash.runEpics oracle 0 0 Dash.EPICS []).2.2.1.countP q = 0 := by
    intro q hq
    refine List.countP_eq_zero.2 (fun e he => ?_)
    simp [hq e (hemem e he).1]
  have hze : ∀ q : Dash.Event → Bool,
      (∀ e, (e.isStoryCreated || e.isStoryFailed || e.isStorySkipped)
        = true → q e = false) →
      (Dash.runStories oracle (Dash.runEpics oracle 0 0 Dash.EPICS []).1 0
        Dash.STORIES (Dash.runEpics oracle 0 0 Dash.EPICS []).2.2.2).events.countP
          q = 0 := by
    intro q hq
    refine List.countP_eq_zero.2 (fun e he => ?_)
    simp [hq e (hsmem e he).1]
  have hdag := dashRunStories_partition oracle hwf Dash.STORIES
    (Dash.runEpics oracle 0 0 Dash.EPICS []).1 0
    (Dash.runEpics oracle 0 0 Dash.EPICS []).2.2.2
  obtain ⟨hdc1, hdc2⟩ := dashRunStories_counters oracle Dash.STORIES
    (Dash.runEpics oracle 0 0 Dash.EPICS []).1 0
    (Dash.runEpics oracle 0 0 Dash.EPICS []).2.2.2
  have hder := dashRunEpics_records oracle hwf Dash.EPICS 0 0 []
  have hdlen := dashRunEpics_dict_len oracle Dash.EPICS 0 0 [] (by decide)
    (fun e _ => rfl)
  have hz1 := hzs Dash.Event.isStoryFailed (fun e he => (dashEvent_epic_kind he).2.1)
  have hz2 := hzs Dash.Event.isStorySkipped (fun e he => (dashEvent_epic_kind he).2.2.1)
  have hz3 := hze Dash.Event.isEpicFailed (fun e he => (dashEvent_story_kind he).2)
  simp only [Cp.report, Cp.main, Cp.storiesFailedCount, Cp.storiesAttempted,
    Cp.storiesSkipped, Cp.totalStories, Cp.epicsFailedCount,
    Dash.report, Dash.main, Dash.storiesFailedCount, Dash.storiesSkippedCount,
    Dash.epicsFailedCount, List.countP_append, List.length_nil] at *
  refine ⟨?_, ?_, ?_, ?_, ?_, ?_⟩ <;> omega

/-- C4 witness: at the all-successful client the partitions hold for both
scripts. -/
theorem C4_report_counts_witness :
    (Cp.report allOk).stories_created + Cp.storiesFailedCount (Cp.main allOk) +
      Cp.storiesSkipped (Cp.main allOk) = (Cp.report allOk).total_stories ∧
    (Dash.report allOk).epics_created + Dash.epicsFailedCount (Dash.main allOk)
      = (Dash.report allOk).total_epics :=
  ⟨(C4_report_counts allOk (fun _ _ => show "K" ≠ "" by decide)).2.2.1,
   (C4_report_counts allOk (fun _ _ => show "K" ≠ "" by decide)).2.2.2.2.2⟩

/-- C5 amended: for every sequence of HTTP responses, both scripts run to
completion — the exception-aware model agrees with the total model, every
catalog parent is recorded, and per-item failures become outcomes — but a
transport exception is caught nowhere and aborts the run (see the
counterexample). -/
theorem C5_amended (oracle : Nat → Resp) :
    Cp.mainE (fun m => CallResult.resp (oracle m)) = .ok (Cp.main oracle) ∧
    Dash.mainE (fun m => CallResult.resp (oracle m)) = .ok (Dash.main oracle) ∧
    (Cp.main oracle).events.countP Cp.Event.isEpicCreated +
      (Cp.main oracle).events.countP Cp.Event.isEpicFailed =
      Cp.EPICS_AND_STORIES.length :=
  ⟨cpMainE_resp oracle, dashMainE_resp oracle,
   (cpRunEpics_records oracle Cp.EPICS_AND_STORIES 0 0).1⟩

/-- C9: every parent reference carried by a child-creation POST is a key
returned by a successful parent creation of the same run — in the CP script
the key returned for the child's own parent, in the dashboard script a
value of the `epic_keys` map, which is populated solely by successful
`create_epic` results; a story whose epic reference does not resolve in the
map triggers no POST and produces no created record, and the created count
and point total are computed from the created records only. -/
theorem C9_parent_provenance (oracle : Nat → Resp) :
    (∀ c ∈ (Cp.main oracle).calls, ∀ i j ek p,
      c = Cp.Call.storyCall i j ek p →
      Cp.Event.epicCreated i ek ∈ (Cp.main oracle).events) ∧
    (∀ c ∈ (Dash.main oracle).calls, ∀ s pk p,
      c = Dash.Call.storyCall s pk p →
      ∃ i, Dash.Event.epicCreated i pk ∈ (Dash.main oracle).events) ∧
    (∀ s, s < Dash.STORIES.length →
      pyTruthy (Dash.dictGet (Dash.main oracle).epic_keys
        ((Dash.STORIES.getD s default).epic)) = false →
      (Dash.main oracle).calls.countP (Dash.Call.isStoryAt s) = 0 ∧
      (Dash.main oracle).events.countP (Dash.Event.isStoryCreatedAt s) = 0) ∧
    ((Dash.main oracle).created_stories =
      (Dash.main oracle).events.countP Dash.Event.isStoryCreated) ∧
    ((Dash.main oracle).total_points =
      ((Dash.main oracle).events.map Dash.eventPoints).sum) := by
  have hemem := dashRunEpics_events_mem oracle Dash.EPICS 0 0 []
  refine ⟨?_, ?_, ?_, ?_, ?_⟩
  · exact cpRunEpics_parent_key oracle Cp.EPICS_AND_STORIES 0 0
  · intro c hc s pk p hcp
    simp only [Dash.main, List.mem_append] at hc
    rcases hc with hc | hc
    · obtain ⟨i2, p2, rfl, _⟩ := dashRunEpics_calls_mem oracle Dash.EPICS 0 0 [] c hc
      exact absurd hcp (by simp)
    · obtain ⟨kv, hkv, hv⟩ := dashRunStories_parent_from_dict oracle Dash.STORIES
        (Dash.runEpics oracle 0 0 Dash.EPICS []).1 0
        (Dash.runEpics oracle 0 0 Dash.EPICS []).2.2.2 c hc s pk p hcp
      rcases dashRunEpics_dict_mem oracle Dash.EPICS 0 0 []
          (List.drop_zero _).symm kv hkv with hin | ⟨i2, _, _, h3⟩
      · exact absurd hin (List.not_mem_nil kv)
      · refine ⟨i2, ?_⟩
        simp only [Dash.main, List.mem_append]
        rw [← hv]
        exact Or.inl h3
  · intro s hs hfal
    have hzc : (Dash.runEpics oracle 0 0 Dash.EPICS []).2.1.countP
        (Dash.Call.isStoryAt s) = 0 := by
      refine List.countP_eq_zero.2 (fun c hc => ?_)
      obtain ⟨i2, p, rfl, _⟩ := dashRunEpics_calls_mem oracle Dash.EPICS 0 0 [] c hc
      simp [Dash.Call.isStoryAt, Dash.Call.isStory]
    have hzce : (Dash.runEpics oracle 0 0 Dash.EPICS []).2.2.1.countP
        (Dash.Event.isStoryCreatedAt s) = 0 := by
      refine List.countP_eq_zero.2 (fun e he => ?_)
      have hk := dashEvent_epic_kind (hemem e he).1
      simp [Dash.Event.isStoryCreatedAt, hk.1]
    have hca := dashRunStories_callAt oracle Dash.STORIES
      (Dash.runEpics oracle 0 0 Dash.EPICS []).1 0
      (Dash.runEpics oracle 0 0 Dash.EPICS []).2.2.2 s hs
    rw [Nat.zero_add] at hca
    have hsk := dashRunStories_skipAt oracle Dash.STORIES
      (Dash.runEpics oracle 0 0 Dash.EPICS []).1 0
      (Dash.runEpics oracle 0 0 Dash.EPICS []).2.2.2 s hs
      (by rw [← hfal]; simp only [Dash.main])
    rw [Nat.zero_add] at hsk
    constructor
    · simp only [Dash.main, List.countP_append]
      rw [hzc, hca, Nat.zero_add]
      rw [show pyTruthy (Dash.dictGet
        (Dash.runEpics oracle 0 0 Dash.EPICS []).2.2.2
        ((Dash.STORIES.getD s default).epic)) = false from hfal]
      rfl
    · simp only [Dash.main, List.countP_append]
      rw [hzce, hsk.2.2, Nat.zero_add]
  · have h := (dashRunStories_counters oracle Dash.STORIES
      (Dash.runEpics oracle 0 0 Dash.EPICS []).1 0
      (Dash.runEpics oracle 0 0 Dash.EPICS []).2.2.2).1
    have hz : (Dash.runEpics oracle 0 0 Dash.EPICS []).2.2.1.countP
        Dash.Event.isStoryCreated = 0 := by
      refine List.countP_eq_zero.2 (fun e he => ?_)
      have hk := dashEvent_epic_kind (hemem e he).1
      simp [hk.1]
    simp only [Dash.main, List.countP_append]
    rw [hz, h, Nat.zero_add]
  · have h := (dashRunStories_counters oracle Dash.STORIES
      (Dash.runEpics oracle 0 0 Dash.EPICS []).1 0
      (Dash.runEpics oracle 0 0 Dash.EPICS []).2.2.2).2
    have hz : ((Dash.runEpics oracle 0 0 Dash.EPICS []).2.2.1.map
        Dash.eventPoints).sum = 0 := by
      rw [List.sum_eq_zero]
      intro x hx
      obtain ⟨e, he, rfl⟩ := List.mem_map.1 hx
      exact (dashEvent_epic_kind (hemem e he).1).2.2.2
    simp only [Dash.main, List.map_append, List.sum_append]
    rw [hz, h, Nat.zero_add]

/-- C9 witness: in the all-successful dashboard run the parent key `K`
carried by the first story POST is a key some successful epic creation
returned. -/
theorem C9_parent_provenance_witness :
    ∃ i, Dash.Event.epicCreated i "K" ∈ (Dash.main allOk).events := by
  have hlen : 10 < (Dash.main allOk).calls.length := by decide
  exact (C9_parent_provenance allOk).2.1 _ (listGetD_mem hlen) 0 "K"
    (Dash.create_story_payload (Dash.STORIES.getD 0 default) "K") rfl


/-- C1: the CP script prints the literal `349` as the total story points of
the final report, while the sum of catalog points over the stories created
by the all-successful run is `372` (the CP catalog total): the printed
total is a constant and differs from the sum of `weight` over the children
with a created outcome. -/
theorem C1_cp_total_is_stale_constant :
    (Cp.report allOk).total_story_points = 349 ∧
    Cp.createdStoryPoints (Cp.main allOk) = 372 ∧
    (Cp.report allOk).total_story_points ≠ Cp.createdStoryPoints (Cp.main allOk) := by
  refine ⟨rfl, by decide, by decide⟩

/-- C2 counterexample: in the dashboard run against the all-successful
client, POST number 1 is the epic call for catalog entry 1, although the
epic of catalog entry 0 succeeded and its first child is only created by
POST number 10 (story 0, whose catalog epic reference is the label of
epic 0): a remote call for a later parent precedes the children of an
earlier successful parent. -/
theorem C2_counterexample :
    Dash.Call.rank ((Dash.main allOk).calls.getD 1 default) = (0, 1) ∧
    Dash.Call.rank ((Dash.main allOk).calls.getD 10 default) = (1, 0) ∧
    (Dash.STORIES.getD 0 default).epic = (Dash.EPICS.getD 0 default).key ∧
    Dash.hasEpicCreatedAt (Dash.main allOk) 0 = true := by
  refine ⟨by decide, by decide, by decide, by decide⟩

/-- C3 counterexample: in the CP run whose first epic creation fails with
HTTP 400 (everything else succeeding), catalog entry 0 gets a failed record
and its 8 children get no POST — but exactly one record of the whole run
mentions catalog entry 0, namely the epic's own failure: the children of the
failed parent are not recorded at all, in particular never with a `skipped`
outcome. -/
theorem C3_counterexample :
    (Cp.main failFirst).events.countP (Cp.Event.isEpicFailedAt 0) = 1 ∧
    (Cp.EPICS_AND_STORIES.getD 0 default).stories.length = 8 ∧
    (Cp.main failFirst).calls.countP (Cp.Call.isStoryAt 0) = 0 ∧
    (Cp.main failFirst).events.countP (fun e => Cp.Event.parentIdx e == 0) = 1 := by
  refine ⟨by decide, by decide, by decide, by decide⟩

/-- C5 counterexample: a connection error raised by the transport on the
very first creation attempt escapes `main` — the scripts contain no
try/except — and aborts the whole run: the result is the uncaught exception
instead of a trace, and no catalog entry is processed or recorded. -/
theorem C5_counterexample :
    Cp.mainE connectionFail = .error "requests.exceptions.ConnectionError" := rfl

set_option maxRecDepth 100000 in
/-- C6 counterexample: for a non-201 response with a 201-character body, the
dashboard `create_story` records the status code together with only the
first 200 characters of the response text, so the recorded reason does not
carry the response body. -/
theorem C6_counterexample :
    (Dash.create_story longResp).2 = some ⟨404, longBody.take 200⟩ ∧
    longBody.take 200 ≠ longBody := by
  refine ⟨rfl, by decide⟩

/-- C6 amended: a creation call is treated as successful, returning the
newly assigned key (and id, for a dashboard epic), iff the response status
is 201; any other status yields `None` together with a recorded reason
carrying the status code and the response body — the full body in the CP
script, its first 200 characters in the dashboard script. -/
theorem C6_amended (r : Resp) :
    ((Cp.create_issue r).1.isSome ↔ r.status = 201) ∧
    (r.status = 201 → Cp.create_issue r = (some r.key, none)) ∧
    (r.status ≠ 201 → Cp.create_issue r = (none, some ⟨r.status, r.body⟩)) ∧
    ((Dash.create_epic r).1.1.isSome ↔ r.status = 201) ∧
    (r.status = 201 → Dash.create_epic r = ((some r.key, some r.id), none)) ∧
    (r.status ≠ 201 →
      Dash.create_epic r = ((none, none), some ⟨r.status, r.body.take 200⟩)) ∧
    ((Dash.create_story r).1.isSome ↔ r.status = 201) ∧
    (r.status = 201 → Dash.create_story r = (some r.key, none)) ∧
    (r.status ≠ 201 →
      Dash.create_story r = (none, some ⟨r.status, r.body.take 200⟩)) := by
  by_cases h : r.status = 201 <;>
    simp [Cp.create_issue, Dash.create_epic, Dash.create_story, h]

/-- C6 amended witness: the concrete 404 response is recorded with its
status and full body by the CP `create_issue`. -/
theorem C6_amended_witness :
    Cp.create_issue longResp = (none, some ⟨404, longBody⟩) :=
  (C6_amended longResp).2.2.1 (by decide)

/-- C7: with either credential value absent or empty (`os.environ.get`
returns the empty string for an unset variable), both scripts print the
export instructions and exit with status 1 at module load, before any HTTP
call is issued. -/
theorem C7_missing_credentials (env : Env) (o1 o2 : Nat → Resp)
    (h : env.JIRA_EMAIL = "" ∨ env.JIRA_API_TOKEN = "") :
    Cp.script env o1 = (credentialInstructions, .exited 1) ∧
    Dash.script env o2 = (credentialInstructions, .exited 1) ∧
    exitCode (Cp.script env o1).2 ≠ 0 ∧ exitCode (Dash.script env o2).2 ≠ 0 ∧
    Cp.scriptCalls (Cp.script env o1) = [] ∧
    Dash.scriptCalls (Dash.script env o2) = [] := by
  have hc : Cp.script env o1 = (credentialInstructions, .exited 1) := by
    simp only [Cp.script, if_pos h]
  have hd : Dash.script env o2 = (credentialInstructions, .exited 1) := by
    simp only [Dash.script, if_pos h]
  refine ⟨hc, hd, ?_, ?_, ?_, ?_⟩ <;>
    simp [hc, hd, exitCode, Cp.scriptCalls, Dash.scriptCalls]

/-- C7 witness: an empty e-mail value makes the CP script exit 1 with no
HTTP calls. -/
theorem C7_missing_credentials_witness :
    Cp.script ⟨"", "token"⟩ allOk = (credentialInstructions, .exited 1) ∧
    Cp.scriptCalls (Cp.script ⟨"", "token"⟩ allOk) = [] :=
  ⟨(C7_missing_credentials ⟨"", "token"⟩ allOk allOk (Or.inl rfl)).1,
   (C7_missing_credentials ⟨"", "token"⟩ allOk allOk (Or.inl rfl)).2.2.2.2.1⟩

/-- C8: with both credentials present each script runs `main` to completion
and the process exits 0 for every response oracle: per-item failures are
reported in the trace but never escalated to a non-zero exit status. -/
theorem C8_exit_zero (env : Env) (o1 o2 : Nat → Resp)
    (he : env.JIRA_EMAIL ≠ "") (ht : env.JIRA_API_TOKEN ≠ "") :
    (Cp.script env o1).2 = .completed (Cp.main o1) ∧
    (Dash.script env o2).2 = .completed (Dash.main o2) ∧
    exitCode (Cp.script env o1).2 = 0 ∧ exitCode (Dash.script env o2).2 = 0 := by
  have h : ¬(env.JIRA_EMAIL = "" ∨ env.JIRA_API_TOKEN = "") := by
    rintro (h1 | h1)
    · exact he h1
    · exact ht h1
  have hc : Cp.script env o1 = ([], .completed (Cp.main o1)) := by
    simp only [Cp.script, if_neg h]
  have hd : Dash.script env o2 = ([], .completed (Dash.main o2)) := by
    simp only [Dash.script, if_neg h]
  refine ⟨?_, ?_, ?_, ?_⟩ <;> simp [hc, hd, exitCode]

/-- C8 witness: with credentials present, a run in which the first creation
fails still exits 0. -/
theorem C8_exit_zero_witness :
    exitCode (Cp.script ⟨"a", "b"⟩ failFirst).2 = 0 ∧
    exitCode (Dash.script ⟨"a", "b"⟩ failFirst).2 = 0 :=
  ⟨(C8_exit_zero ⟨"a", "b"⟩ failFirst failFirst (by decide) (by decide)).2.2.1,
   (C8_exit_zero ⟨"a", "b"⟩ failFirst failFirst (by decide) (by decide)).2.2.2⟩

/-- C10: the CP story payload's fields are exactly project, summary,
description, issuetype and parent — no story-points field of any kind, in
particular not the `customfield_10016` the dashboard script uses — and the
payload is independent of the story's points, so a child's weight is never
transmitted by the CP script. -/
theorem C10_no_points_field (story_data : Cp.StorySpec) (epic_key : String) :
    payloadFieldKeys (Cp.storyIssueData story_data epic_key) =
      ["project", "summary", "description", "issuetype", "parent"] ∧
    Dash.STORY_POINTS_FIELD ∉ payloadFieldKeys (Cp.storyIssueData story_data epic_key) ∧
    (∀ p : Nat,
      Cp.storyIssueData ⟨story_data.summary, p, story_data.description⟩ epic_key =
        Cp.storyIssueData story_data epic_key) := by
  have hk : payloadFieldKeys (Cp.storyIssueData story_data epic_key) =
      ["project", "summary", "description", "issuetype", "parent"] := rfl
  refine ⟨hk, ?_, fun p => rfl⟩
  rw [hk]
  decide
